import Mathlib

/-!
# infinitive: thermostat config decode, snoop handlers and state export

A shallow embedding of `infinitive.go`.

* Machine integers (`uint8`, `uint16`) are natural numbers; a reduction
  modulo `2 ^ 16` is written where the Go expression can leave the type.
* A Go byte slice keeps its length and its capacity apart (`ByteSlice`),
  because `s[lo:hi]` is bounded by the capacity while `s[lo:]` and `s[i]`
  are bounded by the length.
* A run-time panic is the result `none`.
* `float32` values are rationals: the only float operations of the program
  are the conversion of a `uint16` (exact, 16 bits fit the 24-bit
  significand) and the division of such a value by 16 (exact, a change of
  exponent), so no rounding ever takes place.
* `log.Debugf` calls have no effect on the state and are left out.
-/

namespace Infinitive

/-! ## Records declared in `infinitive.go` -/

/-- Go struct `TStatZoneConfig`; `Hold` is a `*bool`, `none` being the nil pointer. -/
structure TStatZoneConfig where
  CurrentTemp : Nat
  CurrentHumidity : Nat
  OutdoorTemp : Nat
  Mode : String
  Stage : Nat
  FanMode : String
  Hold : Option Bool
  HeatSetpoint : Nat
  CoolSetpoint : Nat
  RawMode : Nat
deriving DecidableEq, Repr

/-- Go struct `AirHandlerBlower`. -/
structure AirHandlerBlower where
  BlowerRPM : Nat
deriving DecidableEq, Repr

/-- Go struct `AirHandlerDuct`. -/
structure AirHandlerDuct where
  AirFlowCFM : Nat
  ElecHeat : Bool
deriving DecidableEq, Repr

/-- Go struct `AirHandlerData`. -/
structure AirHandlerData where
  BlowerRPM : Nat
  AirFlowCFM : Nat
  ElecHeat : Bool
deriving DecidableEq, Repr

/-- Go struct `HeatPump`; the `float32` fields are rationals (see the header). -/
structure HeatPump where
  CoilTemp : ℚ
  OutsideTemp : ℚ
deriving DecidableEq, Repr

/-- Go struct `HeatPumpStage`. -/
structure HeatPumpStage where
  Stage : Nat
deriving DecidableEq, Repr

/-- Go struct `HeatPumpData`. -/
structure HeatPumpData where
  CoilTemp : ℚ
  OutsideTemp : ℚ
  Stage : Nat
deriving DecidableEq, Repr

/-! ## Parts of the repository that `infinitive.go` uses but does not declare -/

/-- Modelled from the spec: the zone-parameters register record
`TStatZoneParams`, declared outside `infinitive.go`. Only the fields that
`getConfig` reads are kept; Go's assignment rules make each of them a `uint8`. -/
structure TStatZoneParams where
  Z1FanMode : Nat
  ZoneHold : Nat
  Z1HeatSetpoint : Nat
  Z1CoolSetpoint : Nat
deriving DecidableEq, Repr

/-- Modelled from the spec: the current-parameters register record
`TStatCurrentParams`, declared outside `infinitive.go`. Only the fields that
`getConfig` reads are kept; Go's assignment rules make each of them a `uint8`. -/
structure TStatCurrentParams where
  Z1CurrentTemp : Nat
  Z1CurrentHumidity : Nat
  OutdoorAirTemp : Nat
  Mode : Nat
deriving DecidableEq, Repr

/-- Modelled from the spec: what `getConfig` takes from the rest of the
repository. `readZoneParams` is `infinity.Read(devTSTAT, tTSTAT_ZONE_PARAMS, &cfg)`
and `readCurrentParams` is `infinity.Read(devTSTAT, tTSTAT_CURRENT_PARAMS, &params)`:
a transaction on the bus state `σ` that either fills the record (`some`, the
Go result `true`) or fails (`none`, the Go result `false`). `rawModeToString`
and `rawFanModeToString` are the two name tables. -/
structure Protocol (σ : Type) where
  readZoneParams : σ → Option TStatZoneParams × σ
  readCurrentParams : σ → Option TStatCurrentParams × σ
  rawModeToString : Nat → String
  rawFanModeToString : Nat → String

/-- A value stored in the cache: the Go cache holds `interface{}` values, and
these are the dynamic types the program stores, each a pointer to a record
that the program has just built (never a nil pointer). -/
inductive CacheValue where
  | tstat (c : TStatZoneConfig)
  | blower (b : AirHandlerBlower)
  | duct (d : AirHandlerDuct)
  | heatPump (p : HeatPump)
  | heatPumpStage (s : HeatPumpStage)
deriving DecidableEq, Repr

/-- Modelled from the spec: the state cache (`cache.get`, `cache.update`),
declared outside `infinitive.go`. It is a last-value-wins store keyed by a
logical name; `get` gives the most recent value written under the key, or
`none` (Go's nil interface) when the key was never written. -/
structure StateCache where
  get : String → Option CacheValue

/-- Modelled from the spec: the cache before any write. -/
def StateCache.empty : StateCache := ⟨fun _ => none⟩

/-- Modelled from the spec: `cache.update(key, v)`, a replacement of the
value under `key` that leaves every other key alone. -/
def StateCache.update (c : StateCache) (key : String) (v : CacheValue) : StateCache :=
  ⟨fun k => if k = key then some v else c.get k⟩

/-! ## Go byte slices -/

/-- A Go `[]byte`: `elems` are the `len` bytes of the slice, `spare` the bytes
of the backing array between the length and the capacity. -/
structure ByteSlice where
  elems : List Nat
  spare : List Nat
deriving DecidableEq, Repr

/-- Go `len(s)`. -/
def ByteSlice.len (s : ByteSlice) : Nat := s.elems.length

/-- Go `cap(s)`. -/
def ByteSlice.cap (s : ByteSlice) : Nat := s.elems.length + s.spare.length

/-- Go `s[lo:hi]`: panics unless `lo ≤ hi ≤ cap(s)`. -/
def ByteSlice.slice (s : ByteSlice) (lo hi : Nat) : Option ByteSlice :=
  if lo ≤ hi ∧ hi ≤ s.cap then
    some ⟨((s.elems ++ s.spare).drop lo).take (hi - lo), (s.elems ++ s.spare).drop hi⟩
  else none

/-- Go `s[lo:]`, that is `s[lo:len(s)]`: panics unless `lo ≤ len(s)`. -/
def ByteSlice.sliceFrom (s : ByteSlice) (lo : Nat) : Option ByteSlice :=
  if lo ≤ s.len then some ⟨s.elems.drop lo, s.spare⟩ else none

/-- Go `s[i]`: panics unless `i < len(s)`. -/
def ByteSlice.index (s : ByteSlice) (i : Nat) : Option Nat := s.elems[i]?

/-- Go `bytes.Equal(a, b)` against a byte literal: same length, same bytes. -/
def bytesEqual (a : ByteSlice) (b : List Nat) : Bool := a.elems == b

/-- Go `binary.BigEndian.Uint16(b)`: `_ = b[1]` (the bounds check), then
`uint16(b[1]) | uint16(b[0])<<8`. -/
def bigEndianUint16 (b : ByteSlice) : Option Nat :=
  match b.index 1 with
  | none => none
  | some b1 =>
    match b.index 0 with
    | none => none
    | some b0 => some (b1 ||| ((b0 <<< 8) % 2 ^ 16))

/-- Go `float32(x)` of a `uint16`. -/
def float32OfUint16 (x : Nat) : ℚ := (x : ℚ)

/-- Go `float32(n)` of an untyped integer constant. -/
def float32OfConst (n : Nat) : ℚ := (n : ℚ)

/-- Go struct `InfinityFrame`, declared outside `infinitive.go`; the snoop
handlers read its `data` field only. -/
structure InfinityFrame where
  data : ByteSlice
deriving DecidableEq, Repr

/-! ## Functions of `infinitive.go` -/

/-- Go `getConfig`: `none` is the result `(nil, false)`, `some r` is `(&r, true)`. -/
def getConfig {σ : Type} (infinity : Protocol σ) (s : σ) : Option TStatZoneConfig × σ :=
  match infinity.readZoneParams s with
  | (none, s1) => (none, s1)
  | (some cfg, s1) =>
    match infinity.readCurrentParams s1 with
    | (none, s2) => (none, s2)
    | (some params, s2) =>
      let hold : Bool := decide (cfg.ZoneHold &&& 0x01 = 1)
      (some
        { CurrentTemp := params.Z1CurrentTemp
          CurrentHumidity := params.Z1CurrentHumidity
          OutdoorTemp := params.OutdoorAirTemp
          Mode := infinity.rawModeToString (params.Mode &&& 0xf)
          Stage := params.Mode >>> 5
          FanMode := infinity.rawFanModeToString cfg.Z1FanMode
          Hold := some hold
          HeatSetpoint := cfg.Z1HeatSetpoint
          CoolSetpoint := cfg.Z1CoolSetpoint
          RawMode := params.Mode }, s2)

/-- Go `getFanCoil`: the type assertion `b.(*AirHandlerBlower)` succeeds iff
the cached value is a blower record, and likewise for the duct. -/
def getFanCoil (cache : StateCache) : Option AirHandlerData :=
  match cache.get "blower" with
  | some (.blower tb) =>
    match cache.get "duct" with
    | some (.duct td) =>
      some { BlowerRPM := tb.BlowerRPM, AirFlowCFM := td.AirFlowCFM, ElecHeat := td.ElecHeat }
    | _ => none
  | _ => none

/-- Go `getHeatPump`. -/
def getHeatPump (cache : StateCache) : Option HeatPumpData :=
  match cache.get "heatpump" with
  | some (.heatPump tp) =>
    match cache.get "heatpumpstage" with
    | some (.heatPumpStage ts) =>
      some { CoilTemp := tp.CoilTemp, OutsideTemp := tp.OutsideTemp, Stage := ts.Stage }
    | _ => none
  | _ => none

/-- One iteration of the `for` loop of Go `statePoller` (the sleep left out). -/
def statePollerCycle {σ : Type} (infinity : Protocol σ) (s : σ) (cache : StateCache) :
    σ × StateCache :=
  match getConfig infinity s with
  | (some c, s1) => (s1, cache.update "tstat" (.tstat c))
  | (none, s1) => (s1, cache)

/-- Go `statePoller`, cut after `n` iterations of its endless loop. -/
def statePoller {σ : Type} (infinity : Protocol σ) : Nat → σ → StateCache → σ × StateCache
  | 0, s, cache => (s, cache)
  | n + 1, s, cache =>
    let r := statePollerCycle infinity s cache
    statePoller infinity n r.1 r.2

/-- The callback that `attachSnoops` registers for the sources `0x5000..0x51ff`
(heat pump). `none` is a panic. `head` is `frame.data[0:3]`, which the Go code
takes again in the `else if`; the steps follow Go's order of evaluation. -/
def heatPumpSnoop (frame : InfinityFrame) (cache : StateCache) : Option StateCache :=
  match frame.data.sliceFrom 3 with
  | none => none
  | some data =>
    match frame.data.slice 0 3 with
    | none => none
    | some head =>
      if bytesEqual head [0x00, 0x3e, 0x01] then
        match (data.slice 2 4).bind bigEndianUint16 with
        | none => none
        | some rawCoil =>
          let coilTemp := float32OfUint16 rawCoil / float32OfConst 16
          match (data.slice 0 2).bind bigEndianUint16 with
          | none => none
          | some rawOutside =>
            let outsideTemp := float32OfUint16 rawOutside / float32OfConst 16
            some (cache.update "heatpump"
              (.heatPump { CoilTemp := coilTemp, OutsideTemp := outsideTemp }))
      else if bytesEqual head [0x00, 0x3e, 0x02] then
        match data.index 0 with
        | none => none
        | some b =>
          let stage := b >>> 1
          some (cache.update "heatpumpstage" (.heatPumpStage { Stage := stage }))
      else some cache

/-- The callback that `attachSnoops` registers for the sources `0x4000..0x42ff`
(air handler). `none` is a panic. `head` is `frame.data[0:3]`, which the Go code
takes again in the `else if`; the steps follow Go's order of evaluation. -/
def airHandlerSnoop (frame : InfinityFrame) (cache : StateCache) : Option StateCache :=
  match frame.data.sliceFrom 3 with
  | none => none
  | some data =>
    match frame.data.slice 0 3 with
    | none => none
    | some head =>
      if bytesEqual head [0x00, 0x03, 0x06] then
        match (data.slice 1 5).bind bigEndianUint16 with
        | none => none
        | some blowerRPM =>
          some (cache.update "blower" (.blower { BlowerRPM := blowerRPM }))
      else if bytesEqual head [0x00, 0x03, 0x16] then
        match (data.slice 4 8).bind bigEndianUint16 with
        | none => none
        | some airFlowCFM =>
          match data.index 0 with
          | none => none
          | some b =>
            let elecHeat : Bool := decide (b &&& 0x03 ≠ 0)
            some (cache.update "duct"
              (.duct { AirFlowCFM := airFlowCFM, ElecHeat := elecHeat }))
      else some cache

/-- A registration made by `infinity.snoopResponse(srcMin, srcMax, cb)`. -/
structure Snoop where
  srcMin : Nat
  srcMax : Nat
  cb : InfinityFrame → StateCache → Option StateCache

/-- Go `attachSnoops`: the two registrations, in program order. -/
def attachSnoops : List Snoop :=
  [ { srcMin := 0x5000, srcMax := 0x51ff, cb := heatPumpSnoop },
    { srcMin := 0x4000, srcMax := 0x42ff, cb := airHandlerSnoop } ]

/-! ## Vocabulary of the statements -/

/-- The data byte `d[i]` of a frame (`0` past the end of the data). -/
def InfinityFrame.byte (frame : InfinityFrame) (i : Nat) : Nat := frame.data.elems.getD i 0

/-- Every data byte of the frame is a byte. -/
def InfinityFrame.bytesOK (frame : InfinityFrame) : Prop := ∀ b ∈ frame.data.elems, b < 256

instance (frame : InfinityFrame) : Decidable frame.bytesOK := by
  unfold InfinityFrame.bytesOK; infer_instance

/-- The data of the frame starts with the three bytes `d`. -/
def InfinityFrame.startsWith (frame : InfinityFrame) (d : List Nat) : Prop :=
  frame.data.elems.take 3 = d

instance (frame : InfinityFrame) (d : List Nat) : Decidable (frame.startsWith d) := by
  unfold InfinityFrame.startsWith; infer_instance

/-- A frame whose data is `l`, the backing array ending with the data. -/
def frameOf (l : List Nat) : InfinityFrame := { data := { elems := l, spare := [] } }

/-- A bus for the examples: its state is the list of the reads issued so far,
and the two reads answer `zone` and `cur`. -/
def demoProtocol (zone : Option TStatZoneParams) (cur : Option TStatCurrentParams) :
    Protocol (List String) :=
  { readZoneParams := fun log => (zone, log ++ ["zone"])
    readCurrentParams := fun log => (cur, log ++ ["current"])
    rawModeToString := fun m => Nat.repr m
    rawFanModeToString := fun m => Nat.repr m }

/-- Zone parameters for the examples. -/
def demoZone : TStatZoneParams :=
  { Z1FanMode := 1, ZoneHold := 1, Z1HeatSetpoint := 68, Z1CoolSetpoint := 74 }

/-- Current parameters for the examples, with the mode byte `0x25`. -/
def demoCurrent : TStatCurrentParams :=
  { Z1CurrentTemp := 70, Z1CurrentHumidity := 40, OutdoorAirTemp := 55, Mode := 0x25 }


/-- A heat-pump temperature report: outside bytes `0x01 0x23`, coil bytes `0x01 0x00`. -/
def tempReport : InfinityFrame := frameOf [0x00, 0x3e, 0x01, 0x01, 0x23, 0x01, 0x00]

/-- A heat-pump stage report with the status byte `0x05`. -/
def stageReport : InfinityFrame := frameOf [0x00, 0x3e, 0x02, 0x05]

/-- An air-handler blower report with the speed bytes `0x02 0x03`. -/
def blowerReport : InfinityFrame := frameOf [0x00, 0x03, 0x06, 0x01, 0x02, 0x03, 0x04, 0x05]

/-- An air-handler duct report with the status byte `0x01` and the airflow bytes `0x05 0x06`. -/
def ductReport : InfinityFrame :=
  frameOf [0x00, 0x03, 0x16, 0x01, 0x02, 0x03, 0x04, 0x05, 0x06, 0x07, 0x08]

/-- A frame whose first three bytes are no discriminator of either handler. -/
def otherReport : InfinityFrame := frameOf [0x00, 0x3e, 0x03, 0x09]

/-- The data is long enough for what the heat-pump handler reads: the
3-byte discriminator, 7 bytes of a temperature report, 4 bytes of a stage report. -/
def InfinityFrame.heatPumpLayout (frame : InfinityFrame) : Prop :=
  3 ≤ frame.data.len ∧
  (frame.startsWith [0x00, 0x3e, 0x01] → 7 ≤ frame.data.len) ∧
  (frame.startsWith [0x00, 0x3e, 0x02] → 4 ≤ frame.data.len)

instance (frame : InfinityFrame) : Decidable frame.heatPumpLayout := by
  unfold InfinityFrame.heatPumpLayout; infer_instance

/-- The data is long enough for what the air-handler handler reads: the
3-byte discriminator, 8 bytes of a blower report, 11 bytes of a duct report. -/
def InfinityFrame.airHandlerLayout (frame : InfinityFrame) : Prop :=
  3 ≤ frame.data.len ∧
  (frame.startsWith [0x00, 0x03, 0x06] → 8 ≤ frame.data.len) ∧
  (frame.startsWith [0x00, 0x03, 0x16] → 11 ≤ frame.data.len)

instance (frame : InfinityFrame) : Decidable frame.airHandlerLayout := by
  unfold InfinityFrame.airHandlerLayout; infer_instance

/-- A frame shorter than the discriminator, in a backing array with room to spare. -/
def shortFrame : InfinityFrame :=
  { data := { elems := [0x00, 0x3e], spare := [0x01, 0x01, 0x23, 0x01, 0x00, 0, 0, 0, 0] } }

/-- A stage report cut after its discriminator, in a backing array with room to spare. -/
def cutStageReport : InfinityFrame :=
  { data := { elems := [0x00, 0x3e, 0x02], spare := [0x05, 0, 0, 0, 0, 0, 0, 0, 0] } }

/-- A duct report cut after its discriminator, in a backing array with room to spare. -/
def cutDuctReport : InfinityFrame :=
  { data := { elems := [0x00, 0x03, 0x16], spare := [0x01, 0, 0, 0, 0, 0, 0, 0, 0] } }

/-- A frame as it reaches a handler: the dispatcher hands a frame from a
source in `0x5000..0x51ff` to the heat-pump handler and a frame from a source
in `0x4000..0x42ff` to the air-handler handler. -/
inductive SnoopEvent where
  | heatPump (frame : InfinityFrame)
  | airHandler (frame : InfinityFrame)
deriving DecidableEq, Repr

/-- The handler of the event, run on the cache. -/
def snoopStep (cache : StateCache) : SnoopEvent → Option StateCache
  | .heatPump frame => heatPumpSnoop frame cache
  | .airHandler frame => airHandlerSnoop frame cache

/-- The handlers run on a sequence of frames, oldest first; `none` when one panics. -/
def snoopRun (cache : StateCache) : List SnoopEvent → Option StateCache
  | [] => some cache
  | e :: es => (snoopStep cache e).bind fun cache1 => snoopRun cache1 es

/-- The frame of the event holds bytes and has the layout its handler reads. -/
def SnoopEvent.ok : SnoopEvent → Prop
  | .heatPump frame => frame.bytesOK ∧ frame.heatPumpLayout
  | .airHandler frame => frame.bytesOK ∧ frame.airHandlerLayout

instance (e : SnoopEvent) : Decidable e.ok :=
  match e with
  | .heatPump frame => inferInstanceAs (Decidable (frame.bytesOK ∧ frame.heatPumpLayout))
  | .airHandler frame => inferInstanceAs (Decidable (frame.bytesOK ∧ frame.airHandlerLayout))

/-- The spec's decoders (section 4.5), as a table: the key a frame writes and
the record decoded from it. Heat pump: two 16-bit big-endian fields scaled by
1/16, or a stage `rawByte >> 1`. Air handler: a 16-bit big-endian blower
speed, or a 16-bit big-endian airflow with the electric heat flag taken from
the low 2 bits of the status byte. -/
def specDecode : SnoopEvent → Option (String × CacheValue)
  | .heatPump frame =>
    if frame.startsWith [0x00, 0x3e, 0x01] then
      some ("heatpump", .heatPump
        { CoilTemp := ((256 * frame.byte 5 + frame.byte 6 : Nat) : ℚ) / 16
          OutsideTemp := ((256 * frame.byte 3 + frame.byte 4 : Nat) : ℚ) / 16 })
    else if frame.startsWith [0x00, 0x3e, 0x02] then
      some ("heatpumpstage", .heatPumpStage { Stage := frame.byte 3 >>> 1 })
    else none
  | .airHandler frame =>
    if frame.startsWith [0x00, 0x03, 0x06] then
      some ("blower", .blower { BlowerRPM := 256 * frame.byte 4 + frame.byte 5 })
    else if frame.startsWith [0x00, 0x03, 0x16] then
      some ("duct", .duct
        { AirFlowCFM := 256 * frame.byte 7 + frame.byte 8
          ElecHeat := decide (frame.byte 3 &&& 0x03 ≠ 0) })
    else none

/-- The value that the frame writes under the key `k`, if it writes that key. -/
def writes (k : String) (e : SnoopEvent) : Option CacheValue :=
  match specDecode e with
  | some (k1, v) => if k1 = k then some v else none
  | none => none

/-- The value decoded from the most recent frame of the sequence (oldest
first) that wrote the key `k`; `none` when no frame wrote it. -/
def lastWritten (k : String) : List SnoopEvent → Option CacheValue
  | [] => none
  | e :: es =>
    match lastWritten k es with
    | some v => some v
    | none => writes k e

/-- A second temperature report: outside bytes `0x02 0x00`, coil bytes `0x00 0x08`. -/
def tempReport2 : InfinityFrame := frameOf [0x00, 0x3e, 0x01, 0x02, 0x00, 0x00, 0x08]

/-- Two temperature reports around a stage report, then the two air-handler reports. -/
def demoTraffic : List SnoopEvent :=
  [.heatPump tempReport, .heatPump stageReport, .heatPump tempReport2,
   .airHandler blowerReport, .airHandler ductReport]

/-- A rational that a `float32` holds exactly: `m * 2 ^ e` with a significand
`m < 2 ^ 24` and an exponent `-149 ≤ e ≤ 104`. -/
def isFloat32 (q : ℚ) : Prop :=
  ∃ (m : Nat) (e : Int), m < 2 ^ 24 ∧ -149 ≤ e ∧ e ≤ 104 ∧ q = (m : ℚ) * (2 : ℚ) ^ e

/-- A thermostat config read on an earlier cycle. -/
def demoOldConfig : TStatZoneConfig :=
  { CurrentTemp := 69, CurrentHumidity := 41, OutdoorTemp := 50, Mode := "0", Stage := 0,
    FanMode := "1", Hold := some false, HeatSetpoint := 68, CoolSetpoint := 74, RawMode := 0 }

/-- A cache that holds an earlier thermostat config and a blower value. -/
def demoCache : StateCache :=
  (StateCache.empty.update "tstat" (.tstat demoOldConfig)).update "blower"
    (.blower { BlowerRPM := 515 })

/-- The two register reads that `getConfig` asks of the bus. -/
inductive ReadRequest where
  | zoneParams
  | currentParams
deriving DecidableEq, Repr

/-- The bus `infinity` with a log beside its state: every read that is issued
is appended to the log, and answers as it does on `infinity`. -/
def Protocol.withLog {σ : Type} (infinity : Protocol σ) : Protocol (σ × List ReadRequest) :=
  { readZoneParams := fun st =>
      ((infinity.readZoneParams st.1).1,
        ((infinity.readZoneParams st.1).2, st.2 ++ [ReadRequest.zoneParams]))
    readCurrentParams := fun st =>
      ((infinity.readCurrentParams st.1).1,
        ((infinity.readCurrentParams st.1).2, st.2 ++ [ReadRequest.currentParams]))
    rawModeToString := infinity.rawModeToString
    rawFanModeToString := infinity.rawFanModeToString }

/-- The five key names of the spec's data model. -/
def specKeys : List String := ["thermostat", "blower", "duct", "heatpump", "heatpumpstage"]

/-- The five keys under which `infinitive.go` calls `cache.update`. -/
def writtenKeys : List String := ["tstat", "blower", "duct", "heatpump", "heatpumpstage"]

/-- A heat-pump stage report with the status byte `0x04`. -/
def stageReport4 : InfinityFrame := frameOf [0x00, 0x3e, 0x02, 0x04]

/-- A temperature report whose two fields are the raw bytes `0xff 0xf0`. -/
def highTempReport : InfinityFrame := frameOf [0x00, 0x3e, 0x01, 0xff, 0xf0, 0xff, 0xf0]

/-- A bus for the examples whose state is the mode byte that the thermostat
reports: the current-parameters read answers with that mode byte. -/
def modeProtocol : Protocol Nat :=
  { readZoneParams := fun m => (some demoZone, m)
    readCurrentParams := fun m =>
      (some { Z1CurrentTemp := 70, Z1CurrentHumidity := 40, OutdoorAirTemp := 55, Mode := m }, m)
    rawModeToString := fun m => Nat.repr m
    rawFanModeToString := fun m => Nat.repr m }

/-- What the code decodes from the frame for the key `k`: the value that the
frame's handler, run on this frame alone (on the empty cache), leaves under
`k`. `none` when the handler writes nothing under `k` or panics. -/
def decodedUnder (k : String) (e : SnoopEvent) : Option CacheValue :=
  match snoopStep StateCache.empty e with
  | some cache1 => cache1.get k
  | none => none

/-- The value that the code decodes from the most recent frame of the
sequence (oldest first) whose handler wrote the key `k`; `none` when no frame
wrote it. -/
def lastDecoded (k : String) : List SnoopEvent → Option CacheValue
  | [] => none
  | e :: es =>
    match lastDecoded k es with
    | some v => some v
    | none => decodedUnder k e

/-- A temperature report whose data ends with the discriminator, in a backing
array that goes on with the bytes `0x01 0x23 0x01 0x00`: the handler reads
its two fields past the length of the data. -/
def spareTempReport : InfinityFrame :=
  { data := { elems := [0x00, 0x3e, 0x01], spare := [0x01, 0x23, 0x01, 0x00, 0, 0, 0, 0] } }

/-- A temperature report, a stage report, then the report read past its length. -/
def spareTraffic : List SnoopEvent :=
  [.heatPump tempReport2, .heatPump stageReport, .heatPump spareTempReport]

/-! ## Lemmas: bytes, cache, frame shapes -/

theorem uint16_of_bytes (hi lo : Nat) (hhi : hi < 256) (hlo : lo < 256) :
    lo ||| ((hi <<< 8) % 2 ^ 16) = 256 * hi + lo := by
  have h1 : (hi <<< 8) % 2 ^ 16 = 2 ^ 8 * hi := by
    rw [Nat.shiftLeft_eq, Nat.mul_comm]
    apply Nat.mod_eq_of_lt
    omega
  have h2 := Nat.mul_add_lt_is_or (i := 8) (b := lo) (by simpa using hlo) hi
  rw [h1, Nat.lor_comm, ← h2]

theorem float32_exact (x : Nat) (hx : x < 2 ^ 16) :
    isFloat32 (float32OfUint16 x) ∧ isFloat32 (float32OfConst 16) ∧
      isFloat32 (float32OfUint16 x / float32OfConst 16) := by
  refine ⟨⟨x, 0, by omega, by norm_num, by norm_num, by simp [float32OfUint16]⟩,
    ⟨16, 0, by norm_num, by norm_num, by norm_num, by simp [float32OfConst]⟩,
    ⟨x, -4, by omega, by norm_num, by norm_num, ?_⟩⟩
  simp only [float32OfUint16, float32OfConst]
  rw [zpow_neg, div_eq_mul_inv]
  norm_num

theorem StateCache.get_update_same (c : StateCache) (k : String) (v : CacheValue) :
    (c.update k v).get k = some v := by
  simp [StateCache.update]

theorem StateCache.get_update_other (c : StateCache) (k k' : String) (v : CacheValue)
    (h : k' ≠ k) : (c.update k v).get k' = c.get k' := by
  simp [StateCache.update, h]

theorem cons_of_length {n : Nat} (l : List Nat) (h : n + 1 ≤ l.length) :
    ∃ x rest, l = x :: rest ∧ n ≤ rest.length := by
  cases l with
  | nil => simp at h
  | cons x rest => exact ⟨x, rest, rfl, by simpa using h⟩

theorem frame_shape3 {a b c : Nat} (frame : InfinityFrame) (hlen : 3 ≤ frame.data.len) :
    ∃ x0 x1 x2 rest spare, frame = ⟨⟨x0 :: x1 :: x2 :: rest, spare⟩⟩ ∧
      (frame.startsWith [a, b, c] ↔ [x0, x1, x2] = [a, b, c]) := by
  obtain ⟨⟨l, spare⟩⟩ := frame
  simp only [ByteSlice.len] at hlen
  obtain ⟨x0, l0, rfl, hl0⟩ := cons_of_length l hlen
  obtain ⟨x1, l1, rfl, hl1⟩ := cons_of_length l0 hl0
  obtain ⟨x2, l2, rfl, -⟩ := cons_of_length l1 hl1
  exact ⟨x0, x1, x2, l2, spare, rfl, by simp [InfinityFrame.startsWith]⟩

theorem frame_shape4 {a b c : Nat} (frame : InfinityFrame) (hlen : 4 ≤ frame.data.len)
    (hhead : frame.startsWith [a, b, c]) :
    ∃ d3 rest spare, frame = ⟨⟨a :: b :: c :: d3 :: rest, spare⟩⟩ := by
  obtain ⟨⟨l, spare⟩⟩ := frame
  simp only [ByteSlice.len] at hlen
  obtain ⟨x0, l0, rfl, hl0⟩ := cons_of_length l hlen
  obtain ⟨x1, l1, rfl, hl1⟩ := cons_of_length l0 hl0
  obtain ⟨x2, l2, rfl, hl2⟩ := cons_of_length l1 hl1
  obtain ⟨d3, l3, rfl, -⟩ := cons_of_length l2 hl2
  simp only [InfinityFrame.startsWith, List.take_succ_cons, List.take_zero, List.cons.injEq,
    and_true] at hhead
  obtain ⟨rfl, rfl, rfl⟩ := hhead
  exact ⟨d3, l3, spare, rfl⟩

theorem frame_shape7 {a b c : Nat} (frame : InfinityFrame) (hlen : 7 ≤ frame.data.len)
    (hhead : frame.startsWith [a, b, c]) :
    ∃ d3 d4 d5 d6 rest spare,
      frame = ⟨⟨a :: b :: c :: d3 :: d4 :: d5 :: d6 :: rest, spare⟩⟩ := by
  obtain ⟨d3, l3, spare, rfl⟩ := frame_shape4 frame (by omega) hhead
  simp only [ByteSlice.len, List.length_cons] at hlen
  obtain ⟨d4, l4, rfl, hl4⟩ := cons_of_length (n := 2) l3 (by omega)
  obtain ⟨d5, l5, rfl, hl5⟩ := cons_of_length l4 hl4
  obtain ⟨d6, l6, rfl, -⟩ := cons_of_length l5 hl5
  exact ⟨d3, d4, d5, d6, l6, spare, rfl⟩

theorem frame_shape8 {a b c : Nat} (frame : InfinityFrame) (hlen : 8 ≤ frame.data.len)
    (hhead : frame.startsWith [a, b, c]) :
    ∃ d3 d4 d5 d6 d7 rest spare,
      frame = ⟨⟨a :: b :: c :: d3 :: d4 :: d5 :: d6 :: d7 :: rest, spare⟩⟩ := by
  obtain ⟨d3, d4, d5, d6, l6, spare, rfl⟩ := frame_shape7 frame (by omega) hhead
  simp only [ByteSlice.len, List.length_cons] at hlen
  obtain ⟨d7, l7, rfl, -⟩ := cons_of_length (n := 0) l6 (by omega)
  exact ⟨d3, d4, d5, d6, d7, l7, spare, rfl⟩

theorem frame_shape11 {a b c : Nat} (frame : InfinityFrame) (hlen : 11 ≤ frame.data.len)
    (hhead : frame.startsWith [a, b, c]) :
    ∃ d3 d4 d5 d6 d7 d8 d9 d10 rest spare,
      frame = ⟨⟨a :: b :: c :: d3 :: d4 :: d5 :: d6 :: d7 :: d8 :: d9 :: d10 :: rest, spare⟩⟩ := by
  obtain ⟨d3, d4, d5, d6, d7, l7, spare, rfl⟩ := frame_shape8 frame (by omega) hhead
  simp only [ByteSlice.len, List.length_cons] at hlen
  obtain ⟨d8, l8, rfl, hl8⟩ := cons_of_length (n := 2) l7 (by omega)
  obtain ⟨d9, l9, rfl, hl9⟩ := cons_of_length l8 hl8
  obtain ⟨d10, l10, rfl, -⟩ := cons_of_length l9 hl9
  exact ⟨d3, d4, d5, d6, d7, d8, d9, d10, l10, spare, rfl⟩

/-! ## Lemmas: the handlers on a frame of known shape -/

theorem heatPumpSnoop_temperature (d3 d4 d5 d6 : Nat) (rest spare : List Nat)
    (cache : StateCache) :
    heatPumpSnoop ⟨⟨0x00 :: 0x3e :: 0x01 :: d3 :: d4 :: d5 :: d6 :: rest, spare⟩⟩ cache =
      some (cache.update "heatpump" (.heatPump
        { CoilTemp := ((d6 ||| ((d5 <<< 8) % 2 ^ 16) : Nat) : ℚ) / 16
          OutsideTemp := ((d4 ||| ((d3 <<< 8) % 2 ^ 16) : Nat) : ℚ) / 16 })) := by
  simp_arith [heatPumpSnoop, ByteSlice.sliceFrom, ByteSlice.slice, ByteSlice.len, ByteSlice.cap,
    bytesEqual, bigEndianUint16, ByteSlice.index, float32OfUint16, float32OfConst]

theorem heatPumpSnoop_stage (d3 : Nat) (rest spare : List Nat) (cache : StateCache) :
    heatPumpSnoop ⟨⟨0x00 :: 0x3e :: 0x02 :: d3 :: rest, spare⟩⟩ cache =
      some (cache.update "heatpumpstage" (.heatPumpStage { Stage := d3 >>> 1 })) := by
  simp_arith [heatPumpSnoop, ByteSlice.sliceFrom, ByteSlice.slice, ByteSlice.len, ByteSlice.cap,
    bytesEqual, ByteSlice.index]

theorem heatPumpSnoop_other (x0 x1 x2 : Nat) (rest spare : List Nat) (cache : StateCache)
    (h1 : [x0, x1, x2] ≠ [0x00, 0x3e, 0x01]) (h2 : [x0, x1, x2] ≠ [0x00, 0x3e, 0x02]) :
    heatPumpSnoop ⟨⟨x0 :: x1 :: x2 :: rest, spare⟩⟩ cache = some cache := by
  have e : (ByteSlice.mk (x0 :: x1 :: x2 :: rest) spare).slice 0 3 =
      some ⟨[x0, x1, x2], rest ++ spare⟩ := by
    simp_arith [ByteSlice.slice, ByteSlice.cap]
  simp only [ne_eq, List.cons.injEq, and_true] at h1 h2
  simp only [heatPumpSnoop, e]
  simp_arith [ByteSlice.sliceFrom, ByteSlice.len, bytesEqual, h1, h2]

theorem airHandlerSnoop_blower (d3 d4 d5 d6 d7 : Nat) (rest spare : List Nat)
    (cache : StateCache) :
    airHandlerSnoop ⟨⟨0x00 :: 0x03 :: 0x06 :: d3 :: d4 :: d5 :: d6 :: d7 :: rest, spare⟩⟩ cache =
      some (cache.update "blower" (.blower
        { BlowerRPM := d5 ||| ((d4 <<< 8) % 2 ^ 16) })) := by
  simp_arith [airHandlerSnoop, ByteSlice.sliceFrom, ByteSlice.slice, ByteSlice.len, ByteSlice.cap,
    bytesEqual, bigEndianUint16, ByteSlice.index]

theorem airHandlerSnoop_duct (d3 d4 d5 d6 d7 d8 d9 d10 : Nat) (rest spare : List Nat)
    (cache : StateCache) :
    airHandlerSnoop
        ⟨⟨0x00 :: 0x03 :: 0x16 :: d3 :: d4 :: d5 :: d6 :: d7 :: d8 :: d9 :: d10 :: rest, spare⟩⟩
        cache =
      some (cache.update "duct" (.duct
        { AirFlowCFM := d8 ||| ((d7 <<< 8) % 2 ^ 16)
          ElecHeat := decide (d3 &&& 0x03 ≠ 0) })) := by
  simp_arith [airHandlerSnoop, ByteSlice.sliceFrom, ByteSlice.slice, ByteSlice.len, ByteSlice.cap,
    bytesEqual, bigEndianUint16, ByteSlice.index]

theorem airHandlerSnoop_other (x0 x1 x2 : Nat) (rest spare : List Nat) (cache : StateCache)
    (h1 : [x0, x1, x2] ≠ [0x00, 0x03, 0x06]) (h2 : [x0, x1, x2] ≠ [0x00, 0x03, 0x16]) :
    airHandlerSnoop ⟨⟨x0 :: x1 :: x2 :: rest, spare⟩⟩ cache = some cache := by
  have e : (ByteSlice.mk (x0 :: x1 :: x2 :: rest) spare).slice 0 3 =
      some ⟨[x0, x1, x2], rest ++ spare⟩ := by
    simp_arith [ByteSlice.slice, ByteSlice.cap]
  simp only [ne_eq, List.cons.injEq, and_true] at h1 h2
  simp only [airHandlerSnoop, e]
  simp_arith [ByteSlice.sliceFrom, ByteSlice.len, bytesEqual, h1, h2]

/-! ## Lemmas: the handlers on a frame of known layout -/

theorem heatPumpSnoop_of_temperature (frame : InfinityFrame) (cache : StateCache)
    (hbytes : frame.bytesOK) (hhead : frame.startsWith [0x00, 0x3e, 0x01])
    (hlen : 7 ≤ frame.data.len) :
    heatPumpSnoop frame cache = some (cache.update "heatpump" (.heatPump
        { CoilTemp := ((256 * frame.byte 5 + frame.byte 6 : Nat) : ℚ) / 16
          OutsideTemp := ((256 * frame.byte 3 + frame.byte 4 : Nat) : ℚ) / 16 })) := by
  obtain ⟨d3, d4, d5, d6, rest, spare, rfl⟩ := frame_shape7 frame hlen hhead
  simp only [InfinityFrame.bytesOK] at hbytes
  have h3 := hbytes d3 (by simp)
  have h4 := hbytes d4 (by simp)
  have h5 := hbytes d5 (by simp)
  have h6 := hbytes d6 (by simp)
  rw [heatPumpSnoop_temperature, uint16_of_bytes d5 d6 h5 h6, uint16_of_bytes d3 d4 h3 h4]
  simp [InfinityFrame.byte]

theorem heatPumpSnoop_of_stage (frame : InfinityFrame) (cache : StateCache)
    (hhead : frame.startsWith [0x00, 0x3e, 0x02]) (hlen : 4 ≤ frame.data.len) :
    heatPumpSnoop frame cache =
      some (cache.update "heatpumpstage" (.heatPumpStage { Stage := frame.byte 3 >>> 1 })) := by
  obtain ⟨d3, rest, spare, rfl⟩ := frame_shape4 frame hlen hhead
  rw [heatPumpSnoop_stage]
  simp [InfinityFrame.byte]

theorem heatPumpSnoop_of_other (frame : InfinityFrame) (cache : StateCache)
    (hlen : 3 ≤ frame.data.len) (h1 : ¬ frame.startsWith [0x00, 0x3e, 0x01])
    (h2 : ¬ frame.startsWith [0x00, 0x3e, 0x02]) :
    heatPumpSnoop frame cache = some cache := by
  obtain ⟨x0, x1, x2, rest, spare, rfl, e1⟩ :=
    frame_shape3 (a := 0x00) (b := 0x3e) (c := 0x01) frame hlen
  have e2 : InfinityFrame.startsWith ⟨⟨x0 :: x1 :: x2 :: rest, spare⟩⟩ [0x00, 0x3e, 0x02] ↔
      [x0, x1, x2] = [0x00, 0x3e, 0x02] := by simp [InfinityFrame.startsWith]
  exact heatPumpSnoop_other x0 x1 x2 rest spare cache (fun h => h1 (e1.2 h))
    (fun h => h2 (e2.2 h))

theorem airHandlerSnoop_of_blower (frame : InfinityFrame) (cache : StateCache)
    (hbytes : frame.bytesOK) (hhead : frame.startsWith [0x00, 0x03, 0x06])
    (hlen : 8 ≤ frame.data.len) :
    airHandlerSnoop frame cache =
      some (cache.update "blower"
        (.blower { BlowerRPM := 256 * frame.byte 4 + frame.byte 5 })) := by
  obtain ⟨d3, d4, d5, d6, d7, rest, spare, rfl⟩ := frame_shape8 frame hlen hhead
  simp only [InfinityFrame.bytesOK] at hbytes
  have h4 := hbytes d4 (by simp)
  have h5 := hbytes d5 (by simp)
  rw [airHandlerSnoop_blower, uint16_of_bytes d4 d5 h4 h5]
  simp [InfinityFrame.byte]

theorem airHandlerSnoop_of_duct (frame : InfinityFrame) (cache : StateCache)
    (hbytes : frame.bytesOK) (hhead : frame.startsWith [0x00, 0x03, 0x16])
    (hlen : 11 ≤ frame.data.len) :
    airHandlerSnoop frame cache =
      some (cache.update "duct" (.duct
        { AirFlowCFM := 256 * frame.byte 7 + frame.byte 8
          ElecHeat := decide (frame.byte 3 &&& 0x03 ≠ 0) })) := by
  obtain ⟨d3, d4, d5, d6, d7, d8, d9, d10, rest, spare, rfl⟩ := frame_shape11 frame hlen hhead
  simp only [InfinityFrame.bytesOK] at hbytes
  have h7 := hbytes d7 (by simp)
  have h8 := hbytes d8 (by simp)
  rw [airHandlerSnoop_duct, uint16_of_bytes d7 d8 h7 h8]
  simp [InfinityFrame.byte]

theorem airHandlerSnoop_of_other (frame : InfinityFrame) (cache : StateCache)
    (hlen : 3 ≤ frame.data.len) (h1 : ¬ frame.startsWith [0x00, 0x03, 0x06])
    (h2 : ¬ frame.startsWith [0x00, 0x03, 0x16]) :
    airHandlerSnoop frame cache = some cache := by
  obtain ⟨x0, x1, x2, rest, spare, rfl, e1⟩ :=
    frame_shape3 (a := 0x00) (b := 0x03) (c := 0x06) frame hlen
  have e2 : InfinityFrame.startsWith ⟨⟨x0 :: x1 :: x2 :: rest, spare⟩⟩ [0x00, 0x03, 0x16] ↔
      [x0, x1, x2] = [0x00, 0x03, 0x16] := by simp [InfinityFrame.startsWith]
  exact airHandlerSnoop_other x0 x1 x2 rest spare cache (fun h => h1 (e1.2 h))
    (fun h => h2 (e2.2 h))

theorem heatPumpSnoop_isSome (frame : InfinityFrame) (cache : StateCache)
    (h : frame.heatPumpLayout) : (heatPumpSnoop frame cache).isSome = true := by
  obtain ⟨h3, htemp, hstage⟩ := h
  by_cases e1 : frame.startsWith [0x00, 0x3e, 0x01]
  · obtain ⟨d3, d4, d5, d6, rest, spare, rfl⟩ := frame_shape7 frame (htemp e1) e1
    rw [heatPumpSnoop_temperature]; rfl
  · by_cases e2 : frame.startsWith [0x00, 0x3e, 0x02]
    · rw [heatPumpSnoop_of_stage frame cache e2 (hstage e2)]; rfl
    · rw [heatPumpSnoop_of_other frame cache h3 e1 e2]; rfl

theorem airHandlerSnoop_isSome (frame : InfinityFrame) (cache : StateCache)
    (h : frame.airHandlerLayout) : (airHandlerSnoop frame cache).isSome = true := by
  obtain ⟨h3, hblower, hduct⟩ := h
  by_cases e1 : frame.startsWith [0x00, 0x03, 0x06]
  · obtain ⟨d3, d4, d5, d6, d7, rest, spare, rfl⟩ := frame_shape8 frame (hblower e1) e1
    rw [airHandlerSnoop_blower]; rfl
  · by_cases e2 : frame.startsWith [0x00, 0x03, 0x16]
    · obtain ⟨d3, d4, d5, d6, d7, d8, d9, d10, rest, spare, rfl⟩ :=
        frame_shape11 frame (hduct e2) e2
      rw [airHandlerSnoop_duct]; rfl
    · rw [airHandlerSnoop_of_other frame cache h3 e1 e2]; rfl

/-! ## Lemmas: state export -/

theorem getFanCoil_eq_some_iff (cache : StateCache) (r : AirHandlerData) :
    getFanCoil cache = some r ↔
      ∃ tb td, cache.get "blower" = some (.blower tb) ∧ cache.get "duct" = some (.duct td) ∧
        r.BlowerRPM = tb.BlowerRPM ∧ r.AirFlowCFM = td.AirFlowCFM ∧
        r.ElecHeat = td.ElecHeat := by
  rcases hb : cache.get "blower" with _ | (_ | tb | _ | _ | _) <;>
    rcases hd : cache.get "duct" with _ | (_ | _ | td | _ | _) <;>
    simp only [getFanCoil, hb, hd] <;> simp
  constructor
  · rintro rfl
    exact ⟨rfl, rfl, rfl⟩
  · rintro ⟨e1, e2, e3⟩
    cases r
    simp_all

theorem getHeatPump_eq_some_iff (cache : StateCache) (r : HeatPumpData) :
    getHeatPump cache = some r ↔
      ∃ tp ts, cache.get "heatpump" = some (.heatPump tp) ∧
        cache.get "heatpumpstage" = some (.heatPumpStage ts) ∧
        r.CoilTemp = tp.CoilTemp ∧ r.OutsideTemp = tp.OutsideTemp ∧ r.Stage = ts.Stage := by
  rcases hp : cache.get "heatpump" with _ | (_ | _ | _ | tp | _) <;>
    rcases hs : cache.get "heatpumpstage" with _ | (_ | _ | _ | _ | ts) <;>
    simp only [getHeatPump, hp, hs] <;> simp
  constructor
  · rintro rfl
    exact ⟨rfl, rfl, rfl⟩
  · rintro ⟨e1, e2, e3⟩
    cases r
    simp_all

theorem getFanCoil_eq_none (cache : StateCache)
    (h : cache.get "blower" = none ∨ cache.get "duct" = none) : getFanCoil cache = none := by
  rcases h with h | h
  · simp [getFanCoil, h]
  · unfold getFanCoil
    rw [h]
    split <;> rfl

theorem getHeatPump_eq_none (cache : StateCache)
    (h : cache.get "heatpump" = none ∨ cache.get "heatpumpstage" = none) :
    getHeatPump cache = none := by
  rcases h with h | h
  · simp [getHeatPump, h]
  · unfold getHeatPump
    rw [h]
    split <;> rfl

/-! ## Lemmas: a run of the handlers -/

theorem snoopStep_eq_specDecode (e : SnoopEvent) (cache : StateCache) (h : e.ok) :
    snoopStep cache e =
      some (match specDecode e with
        | some (k, v) => cache.update k v
        | none => cache) := by
  cases e with
  | heatPump frame =>
    obtain ⟨hb, h3, htemp, hstage⟩ := h
    simp only [snoopStep, specDecode]
    by_cases e1 : frame.startsWith [0x00, 0x3e, 0x01]
    · rw [if_pos e1, heatPumpSnoop_of_temperature frame cache hb e1 (htemp e1)]
    · by_cases e2 : frame.startsWith [0x00, 0x3e, 0x02]
      · rw [if_neg e1, if_pos e2, heatPumpSnoop_of_stage frame cache e2 (hstage e2)]
      · rw [if_neg e1, if_neg e2, heatPumpSnoop_of_other frame cache h3 e1 e2]
  | airHandler frame =>
    obtain ⟨hb, h3, hblower, hduct⟩ := h
    simp only [snoopStep, specDecode]
    by_cases e1 : frame.startsWith [0x00, 0x03, 0x06]
    · rw [if_pos e1, airHandlerSnoop_of_blower frame cache hb e1 (hblower e1)]
    · by_cases e2 : frame.startsWith [0x00, 0x03, 0x16]
      · rw [if_neg e1, if_pos e2, airHandlerSnoop_of_duct frame cache hb e2 (hduct e2)]
      · rw [if_neg e1, if_neg e2, airHandlerSnoop_of_other frame cache h3 e1 e2]

theorem get_after_specDecode (e : SnoopEvent) (cache : StateCache) (k : String) :
    (match specDecode e with
      | some (k1, v) => cache.update k1 v
      | none => cache).get k =
      match writes k e with
      | some v => some v
      | none => cache.get k := by
  unfold writes
  rcases specDecode e with _ | ⟨k1, v⟩
  · rfl
  · by_cases hk : k1 = k
    · subst hk; simp [StateCache.update]
    · have hk2 : ¬ k = k1 := fun h => hk h.symm
      simp [StateCache.update, hk, hk2]

theorem snoopRun_get (events : List SnoopEvent) :
    ∀ cache0 : StateCache, (∀ e ∈ events, e.ok) →
      ∃ cache, snoopRun cache0 events = some cache ∧
        ∀ k, cache.get k =
          match lastWritten k events with
          | some v => some v
          | none => cache0.get k := by
  induction events with
  | nil => intro cache0 _; exact ⟨cache0, rfl, fun _ => rfl⟩
  | cons e es ih =>
    intro cache0 hok
    have he : e.ok := hok e (List.mem_cons_self e es)
    obtain ⟨cache, hrun, hget⟩ :=
      ih (match specDecode e with
        | some (k, v) => cache0.update k v
        | none => cache0) (fun x hx => hok x (List.mem_cons_of_mem e hx))
    refine ⟨cache, ?_, ?_⟩
    · simp only [snoopRun, snoopStep_eq_specDecode e cache0 he, Option.some_bind, hrun]
    · intro k
      rw [hget k, get_after_specDecode e cache0 k]
      simp only [lastWritten]
      rcases lastWritten k es with _ | v <;> rfl

/-! ## Lemmas: what one call can write -/

theorem heatPumpSnoop_cases (frame : InfinityFrame) (cache : StateCache) :
    heatPumpSnoop frame cache = none ∨ heatPumpSnoop frame cache = some cache ∨
      (∃ p, heatPumpSnoop frame cache = some (cache.update "heatpump" (.heatPump p))) ∨
      (∃ st, heatPumpSnoop frame cache =
        some (cache.update "heatpumpstage" (.heatPumpStage st))) := by
  unfold heatPumpSnoop
  split
  · exact Or.inl rfl
  · split
    · exact Or.inl rfl
    · split
      · split
        · exact Or.inl rfl
        · split
          · exact Or.inl rfl
          · exact Or.inr (Or.inr (Or.inl ⟨_, rfl⟩))
      · split
        · split
          · exact Or.inl rfl
          · exact Or.inr (Or.inr (Or.inr ⟨_, rfl⟩))
        · exact Or.inr (Or.inl rfl)

theorem airHandlerSnoop_cases (frame : InfinityFrame) (cache : StateCache) :
    airHandlerSnoop frame cache = none ∨ airHandlerSnoop frame cache = some cache ∨
      (∃ b, airHandlerSnoop frame cache = some (cache.update "blower" (.blower b))) ∨
      (∃ d, airHandlerSnoop frame cache = some (cache.update "duct" (.duct d))) := by
  unfold airHandlerSnoop
  split
  · exact Or.inl rfl
  · split
    · exact Or.inl rfl
    · split
      · split
        · exact Or.inl rfl
        · exact Or.inr (Or.inr (Or.inl ⟨_, rfl⟩))
      · split
        · split
          · exact Or.inl rfl
          · split
            · exact Or.inl rfl
            · exact Or.inr (Or.inr (Or.inr ⟨_, rfl⟩))
        · exact Or.inr (Or.inl rfl)

theorem statePollerCycle_cases {σ : Type} (infinity : Protocol σ) (s : σ) (cache : StateCache) :
    ((getConfig infinity s).1 = none ∧ (statePollerCycle infinity s cache).2 = cache) ∨
      ∃ c, (getConfig infinity s).1 = some c ∧
        (statePollerCycle infinity s cache).2 = cache.update "tstat" (.tstat c) := by
  unfold statePollerCycle
  split
  · rename_i c s1 e
    exact Or.inr ⟨c, by rw [e], rfl⟩
  · rename_i s1 e
    exact Or.inl ⟨by rw [e], rfl⟩

theorem getConfig_of_reads {σ : Type} (infinity : Protocol σ) (s s1 s2 : σ)
    (cfg : TStatZoneParams) (params : TStatCurrentParams)
    (hzone : infinity.readZoneParams s = (some cfg, s1))
    (hcur : infinity.readCurrentParams s1 = (some params, s2)) :
    getConfig infinity s =
      (some
        { CurrentTemp := params.Z1CurrentTemp
          CurrentHumidity := params.Z1CurrentHumidity
          OutdoorTemp := params.OutdoorAirTemp
          Mode := infinity.rawModeToString (params.Mode &&& 0xf)
          Stage := params.Mode >>> 5
          FanMode := infinity.rawFanModeToString cfg.Z1FanMode
          Hold := some (decide (cfg.ZoneHold &&& 0x01 = 1))
          HeatSetpoint := cfg.Z1HeatSetpoint
          CoolSetpoint := cfg.Z1CoolSetpoint
          RawMode := params.Mode }, s2) := by
  simp only [getConfig, hzone, hcur]

theorem StateCache.get_update_of_changed (c : StateCache) (key k : String) (v : CacheValue)
    (h : (c.update key v).get k ≠ c.get k) : k = key := by
  by_contra hk
  exact h (StateCache.get_update_other c key k v hk)

/-! ## Lemmas: the numbers of the decoders -/

theorem InfinityFrame.byte_lt (frame : InfinityFrame) (h : frame.bytesOK) (i : Nat) :
    frame.byte i < 256 := by
  unfold InfinityFrame.byte
  rw [List.getD_eq_getElem?_getD]
  cases hx : frame.data.elems[i]? with
  | none => simp
  | some x => exact h x (List.getElem?_mem hx)

theorem sixteenths_inj (a b a' b' : Nat) (hb : b < 256) (hb' : b' < 256) :
    ((256 * a + b : Nat) : ℚ) / 16 = ((256 * a' + b' : Nat) : ℚ) / 16 ↔ a = a' ∧ b = b' := by
  constructor
  · intro h
    have h16 : (16 : ℚ) ≠ 0 := by norm_num
    have h2 : ((256 * a + b : Nat) : ℚ) = ((256 * a' + b' : Nat) : ℚ) :=
      (div_left_inj' h16).1 h
    have h3 : 256 * a + b = 256 * a' + b' := by exact_mod_cast h2
    omega
  · rintro ⟨rfl, rfl⟩; rfl

theorem sixteenths_bounds (a b : Nat) (ha : a < 256) (hb : b < 256) :
    0 ≤ ((256 * a + b : Nat) : ℚ) / 16 ∧ ((256 * a + b : Nat) : ℚ) / 16 ≤ 4095.9375 ∧
      16 * (((256 * a + b : Nat) : ℚ) / 16) = ((256 * a + b : Nat) : ℚ) := by
  refine ⟨by positivity, ?_, by field_simp⟩
  have h : ((256 * a + b : Nat) : ℚ) ≤ 65535 := by
    have : 256 * a + b ≤ 65535 := by omega
    exact_mod_cast this
  rw [div_le_iff₀ (by norm_num)]
  norm_num at h ⊢
  linarith

theorem half_of_shift (b b' : Nat) : b >>> 1 = b' >>> 1 ↔ b / 2 = b' / 2 := by
  simp [Nat.shiftRight_eq_div_pow]

set_option maxRecDepth 100000 in
theorem mode_bit4 : ∀ m : Nat, m < 256 →
    (m ^^^ 0x10) &&& 0xf = m &&& 0xf ∧ (m ^^^ 0x10) >>> 5 = m >>> 5 ∧ m ^^^ 0x10 ≠ m ∧
      m &&& 0xf ≤ 15 ∧ m >>> 5 ≤ 7 := by
  decide

/-! ## Lemmas: what the code decodes from a frame -/

theorem heatPumpSnoop_uniform (frame : InfinityFrame) :
    (∀ cache, heatPumpSnoop frame cache = none) ∨
    (∀ cache, heatPumpSnoop frame cache = some cache) ∨
    (∃ p, ∀ cache,
      heatPumpSnoop frame cache = some (cache.update "heatpump" (.heatPump p))) ∨
    (∃ st, ∀ cache,
      heatPumpSnoop frame cache = some (cache.update "heatpumpstage" (.heatPumpStage st))) := by
  rcases h1 : frame.data.sliceFrom 3 with _ | data
  · exact Or.inl fun cache => by simp [heatPumpSnoop, h1]
  rcases h2 : frame.data.slice 0 3 with _ | head
  · exact Or.inl fun cache => by simp [heatPumpSnoop, h1, h2]
  by_cases b1 : bytesEqual head [0x00, 0x3e, 0x01] = true
  · rcases h3 : (data.slice 2 4).bind bigEndianUint16 with _ | rawCoil
    · exact Or.inl fun cache => by simp [heatPumpSnoop, h1, h2, b1, h3]
    rcases h4 : (data.slice 0 2).bind bigEndianUint16 with _ | rawOutside
    · exact Or.inl fun cache => by simp [heatPumpSnoop, h1, h2, b1, h3, h4]
    · exact Or.inr (Or.inr (Or.inl
        ⟨{ CoilTemp := float32OfUint16 rawCoil / float32OfConst 16
           OutsideTemp := float32OfUint16 rawOutside / float32OfConst 16 },
          fun cache => by simp [heatPumpSnoop, h1, h2, b1, h3, h4]⟩))
  · by_cases b2 : bytesEqual head [0x00, 0x3e, 0x02] = true
    · rcases h3 : data.index 0 with _ | b
      · exact Or.inl fun cache => by simp [heatPumpSnoop, h1, h2, b1, b2, h3]
      · exact Or.inr (Or.inr (Or.inr ⟨{ Stage := b >>> 1 }, fun cache => by
          simp [heatPumpSnoop, h1, h2, b1, b2, h3]⟩))
    · exact Or.inr (Or.inl fun cache => by simp [heatPumpSnoop, h1, h2, b1, b2])

theorem airHandlerSnoop_uniform (frame : InfinityFrame) :
    (∀ cache, airHandlerSnoop frame cache = none) ∨
    (∀ cache, airHandlerSnoop frame cache = some cache) ∨
    (∃ b, ∀ cache, airHandlerSnoop frame cache = some (cache.update "blower" (.blower b))) ∨
    (∃ d, ∀ cache, airHandlerSnoop frame cache = some (cache.update "duct" (.duct d))) := by
  rcases h1 : frame.data.sliceFrom 3 with _ | data
  · exact Or.inl fun cache => by simp [airHandlerSnoop, h1]
  rcases h2 : frame.data.slice 0 3 with _ | head
  · exact Or.inl fun cache => by simp [airHandlerSnoop, h1, h2]
  by_cases b1 : bytesEqual head [0x00, 0x03, 0x06] = true
  · rcases h3 : (data.slice 1 5).bind bigEndianUint16 with _ | blowerRPM
    · exact Or.inl fun cache => by simp [airHandlerSnoop, h1, h2, b1, h3]
    · exact Or.inr (Or.inr (Or.inl ⟨{ BlowerRPM := blowerRPM }, fun cache => by
        simp [airHandlerSnoop, h1, h2, b1, h3]⟩))
  · by_cases b2 : bytesEqual head [0x00, 0x03, 0x16] = true
    · rcases h3 : (data.slice 4 8).bind bigEndianUint16 with _ | airFlowCFM
      · exact Or.inl fun cache => by simp [airHandlerSnoop, h1, h2, b1, b2, h3]
      rcases h4 : data.index 0 with _ | b
      · exact Or.inl fun cache => by simp [airHandlerSnoop, h1, h2, b1, b2, h3, h4]
      · exact Or.inr (Or.inr (Or.inr
          ⟨{ AirFlowCFM := airFlowCFM, ElecHeat := decide (b &&& 0x03 ≠ 0) }, fun cache => by
            simp [airHandlerSnoop, h1, h2, b1, b2, h3, h4]⟩))
    · exact Or.inr (Or.inl fun cache => by simp [airHandlerSnoop, h1, h2, b1, b2])

theorem snoopStep_get_decoded (e : SnoopEvent) (cache cache1 : StateCache)
    (h : snoopStep cache e = some cache1) (k : String) :
    cache1.get k =
      match decodedUnder k e with
      | some v => some v
      | none => cache.get k := by
  have key : ∀ (f : StateCache → Option StateCache),
      ((∀ c, f c = none) ∨ (∀ c, f c = some c) ∨
        ∃ key v, ∀ c, f c = some (c.update key v)) →
      f cache = some cache1 →
      cache1.get k =
        match (match f StateCache.empty with
          | some c1 => c1.get k
          | none => none) with
        | some v => some v
        | none => cache.get k := by
    intro f hf hc
    rcases hf with hf | hf | ⟨key, v, hf⟩
    · rw [hf] at hc; cases hc
    · rw [hf] at hc; cases hc
      rw [hf]; rfl
    · rw [hf] at hc; cases hc
      rw [hf]
      by_cases hk : k = key
      · subst hk
        simp [StateCache.update]
      · simp [StateCache.update, StateCache.empty, hk]
  cases e with
  | heatPump frame =>
    refine key (heatPumpSnoop frame) ?_ h
    rcases heatPumpSnoop_uniform frame with u | u | ⟨p, u⟩ | ⟨st, u⟩
    · exact Or.inl u
    · exact Or.inr (Or.inl u)
    · exact Or.inr (Or.inr ⟨_, _, u⟩)
    · exact Or.inr (Or.inr ⟨_, _, u⟩)
  | airHandler frame =>
    refine key (airHandlerSnoop frame) ?_ h
    rcases airHandlerSnoop_uniform frame with u | u | ⟨b, u⟩ | ⟨d, u⟩
    · exact Or.inl u
    · exact Or.inr (Or.inl u)
    · exact Or.inr (Or.inr ⟨_, _, u⟩)
    · exact Or.inr (Or.inr ⟨_, _, u⟩)

theorem snoopRun_get_decoded (events : List SnoopEvent) :
    ∀ cache0 cache : StateCache, snoopRun cache0 events = some cache →
      ∀ k, cache.get k =
        match lastDecoded k events with
        | some v => some v
        | none => cache0.get k := by
  induction events with
  | nil =>
    intro cache0 cache h k
    cases h
    rfl
  | cons e es ih =>
    intro cache0 cache h k
    simp only [snoopRun] at h
    rcases h1 : snoopStep cache0 e with _ | cache1
    · rw [h1] at h; cases h
    · rw [h1] at h
      rw [ih cache1 cache h k, snoopStep_get_decoded e cache0 cache1 h1 k]
      simp only [lastDecoded]
      rcases lastDecoded k es with _ | v <;> rfl

theorem snoopRun_append (pre suf : List SnoopEvent) :
    ∀ cache0 : StateCache,
      snoopRun cache0 (pre ++ suf) = (snoopRun cache0 pre).bind fun c => snoopRun c suf := by
  induction pre with
  | nil => intro cache0; rfl
  | cons e es ih =>
    intro cache0
    simp only [List.cons_append, snoopRun]
    rcases snoopStep cache0 e with _ | cache1
    · rfl
    · exact ih cache1

theorem decodedUnder_eq_writes (e : SnoopEvent) (h : e.ok) (k : String) :
    decodedUnder k e = writes k e := by
  unfold decodedUnder
  rw [snoopStep_eq_specDecode e StateCache.empty h]
  simp only
  rw [get_after_specDecode e StateCache.empty k]
  rcases writes k e with _ | v <;> rfl

theorem lastDecoded_eq_lastWritten (events : List SnoopEvent) (hok : ∀ e ∈ events, e.ok)
    (k : String) : lastDecoded k events = lastWritten k events := by
  induction events with
  | nil => rfl
  | cons e es ih =>
    simp only [lastDecoded, lastWritten]
    rw [ih (fun x hx => hok x (List.mem_cons_of_mem e hx)),
      decodedUnder_eq_writes e (hok e (List.mem_cons_self e es)) k]

/-! ## The thermostat configuration (C1) -/

/-- C1: when both register reads succeed, `getConfig` returns a record whose
`Mode` is `rawModeToString` of the low nibble of the mode byte, whose `Stage`
is the mode byte shifted right by 5 and whose `RawMode` is the mode byte; the
mode byte `0x25` gives the mode-enum value `0x5` and stage `1`. -/
theorem getConfig_mode_stage {σ : Type} (infinity : Protocol σ) (s s1 s2 : σ)
    (cfg : TStatZoneParams) (params : TStatCurrentParams)
    (hzone : infinity.readZoneParams s = (some cfg, s1))
    (hcur : infinity.readCurrentParams s1 = (some params, s2)) :
    ∃ r : TStatZoneConfig, (getConfig infinity s).1 = some r ∧
      r.Mode = infinity.rawModeToString (params.Mode &&& 0x0f) ∧
      r.Stage = params.Mode >>> 5 ∧ r.RawMode = params.Mode ∧
      (params.Mode = 0x25 → r.Mode = infinity.rawModeToString 0x5 ∧ r.Stage = 1) := by
  simp only [getConfig, hzone, hcur]
  refine ⟨_, rfl, rfl, rfl, rfl, ?_⟩
  intro h
  simp only [h]
  exact ⟨rfl, rfl⟩

/-- Witness of C1: the example bus answers both reads, the mode byte being `0x25`. -/
theorem getConfig_mode_stage_witness :
    ∃ r : TStatZoneConfig,
      (getConfig (demoProtocol (some demoZone) (some demoCurrent)) []).1 = some r ∧
      r.Mode = (demoProtocol (some demoZone) (some demoCurrent)).rawModeToString
        (demoCurrent.Mode &&& 0x0f) ∧
      r.Stage = demoCurrent.Mode >>> 5 ∧ r.RawMode = demoCurrent.Mode ∧
      demoCurrent.Mode = 0x25 ∧
      r.Mode = (demoProtocol (some demoZone) (some demoCurrent)).rawModeToString 0x5 ∧
      r.Stage = 1 :=
  have ⟨r, h1, h2, h3, h4, h5⟩ :=
    getConfig_mode_stage (demoProtocol (some demoZone) (some demoCurrent)) [] ["zone"]
      ["zone", "current"] demoZone demoCurrent rfl rfl
  ⟨r, h1, h2, h3, h4, rfl, h5 rfl⟩

/-! ## The heat-pump temperature report (C2) -/

/-- C2: a frame given to the heat-pump handler whose data starts with
`0x00 0x3e 0x01` and has at least 7 bytes replaces the cache key `"heatpump"`
with a record whose `OutsideTemp` is `(256*d[3] + d[4]) / 16` and whose
`CoilTemp` is `(256*d[5] + d[6]) / 16`; the coil bytes `0x01 0x00` give `16`. -/
theorem heatPump_temperature_report (frame : InfinityFrame) (cache : StateCache)
    (hbytes : frame.bytesOK) (hhead : frame.startsWith [0x00, 0x3e, 0x01])
    (hlen : 7 ≤ frame.data.len) :
    heatPumpSnoop frame cache = some (cache.update "heatpump" (.heatPump
        { CoilTemp := ((256 * frame.byte 5 + frame.byte 6 : Nat) : ℚ) / 16
          OutsideTemp := ((256 * frame.byte 3 + frame.byte 4 : Nat) : ℚ) / 16 })) ∧
      (frame.byte 5 = 0x01 → frame.byte 6 = 0x00 →
        ((256 * frame.byte 5 + frame.byte 6 : Nat) : ℚ) / 16 = 16) := by
  refine ⟨heatPumpSnoop_of_temperature frame cache hbytes hhead hlen, ?_⟩
  intro e5 e6
  rw [e5, e6]; norm_num

/-- Witness of C2: the temperature report with the coil bytes `0x01 0x00`. -/
theorem heatPump_temperature_report_witness :
    tempReport.bytesOK ∧ tempReport.startsWith [0x00, 0x3e, 0x01] ∧ 7 ≤ tempReport.data.len ∧
    heatPumpSnoop tempReport StateCache.empty =
      some (StateCache.empty.update "heatpump" (.heatPump
        { CoilTemp := ((256 * tempReport.byte 5 + tempReport.byte 6 : Nat) : ℚ) / 16
          OutsideTemp := ((256 * tempReport.byte 3 + tempReport.byte 4 : Nat) : ℚ) / 16 })) ∧
    tempReport.byte 5 = 0x01 ∧ tempReport.byte 6 = 0x00 ∧
    ((256 * tempReport.byte 5 + tempReport.byte 6 : Nat) : ℚ) / 16 = 16 :=
  have h := heatPump_temperature_report tempReport StateCache.empty (by decide) (by decide)
    (by decide)
  ⟨by decide, by decide, by decide, h.1, by decide, by decide, h.2 (by decide) (by decide)⟩

/-! ## The heat-pump stage report (C3) -/

/-- C3: a frame given to the heat-pump handler whose data starts with
`0x00 0x3e 0x02` and has at least 4 bytes replaces the cache key
`"heatpumpstage"` with a record whose `Stage` is `d[3] >> 1` (the status byte
`0x05` gives stage 2) and leaves the key `"heatpump"` as it was. -/
theorem heatPump_stage_report (frame : InfinityFrame) (cache : StateCache)
    (hhead : frame.startsWith [0x00, 0x3e, 0x02]) (hlen : 4 ≤ frame.data.len) :
    ∃ cache1, heatPumpSnoop frame cache = some cache1 ∧
      cache1 = cache.update "heatpumpstage" (.heatPumpStage { Stage := frame.byte 3 >>> 1 }) ∧
      cache1.get "heatpumpstage" = some (.heatPumpStage { Stage := frame.byte 3 >>> 1 }) ∧
      cache1.get "heatpump" = cache.get "heatpump" ∧
      (frame.byte 3 = 0x05 → cache1.get "heatpumpstage" = some (.heatPumpStage { Stage := 2 })) := by
  refine ⟨_, heatPumpSnoop_of_stage frame cache hhead hlen, rfl, ?_, ?_, ?_⟩
  · exact StateCache.get_update_same _ _ _
  · exact StateCache.get_update_other _ _ _ _ (by decide)
  · intro e
    rw [StateCache.get_update_same, e]
    rfl

/-- Witness of C3: the stage report with the status byte `0x05`. -/
theorem heatPump_stage_report_witness :
    stageReport.startsWith [0x00, 0x3e, 0x02] ∧ 4 ≤ stageReport.data.len ∧
    ∃ cache1, heatPumpSnoop stageReport StateCache.empty = some cache1 ∧
      cache1 = StateCache.empty.update "heatpumpstage"
        (.heatPumpStage { Stage := stageReport.byte 3 >>> 1 }) ∧
      cache1.get "heatpumpstage" = some (.heatPumpStage { Stage := stageReport.byte 3 >>> 1 }) ∧
      cache1.get "heatpump" = StateCache.empty.get "heatpump" ∧
      stageReport.byte 3 = 0x05 ∧
      cache1.get "heatpumpstage" = some (.heatPumpStage { Stage := 2 }) :=
  have ⟨cache1, h1, h2, h3, h4, h5⟩ :=
    heatPump_stage_report stageReport StateCache.empty (by decide) (by decide)
  ⟨by decide, by decide, cache1, h1, h2, h3, h4, by decide, h5 (by decide)⟩

/-! ## State export (C4) -/

/-- C4: `getFanCoil` returns a record iff the key `"blower"` holds an
`AirHandlerBlower` and the key `"duct"` holds an `AirHandlerDuct`, and
`getHeatPump` returns a record iff the key `"heatpump"` holds a `HeatPump`
and the key `"heatpumpstage"` holds a `HeatPumpStage`; the fields of the
record are the fields of the cached values, and a required key that was
never written makes the result absent. -/
theorem state_export_present_iff_cached (cache : StateCache) :
    (∀ r : AirHandlerData, getFanCoil cache = some r ↔
      ∃ tb td, cache.get "blower" = some (.blower tb) ∧ cache.get "duct" = some (.duct td) ∧
        r.BlowerRPM = tb.BlowerRPM ∧ r.AirFlowCFM = td.AirFlowCFM ∧
        r.ElecHeat = td.ElecHeat) ∧
    (∀ r : HeatPumpData, getHeatPump cache = some r ↔
      ∃ tp ts, cache.get "heatpump" = some (.heatPump tp) ∧
        cache.get "heatpumpstage" = some (.heatPumpStage ts) ∧
        r.CoilTemp = tp.CoilTemp ∧ r.OutsideTemp = tp.OutsideTemp ∧ r.Stage = ts.Stage) ∧
    (cache.get "blower" = none ∨ cache.get "duct" = none → getFanCoil cache = none) ∧
    (cache.get "heatpump" = none ∨ cache.get "heatpumpstage" = none →
      getHeatPump cache = none) := by
  exact ⟨getFanCoil_eq_some_iff cache, getHeatPump_eq_some_iff cache,
    getFanCoil_eq_none cache, getHeatPump_eq_none cache⟩

/-! ## Frames too short for the handlers (C5) -/

/-- C5, as the code has it: the handlers check no length, so they complete
normally, every slice and index operation in bounds, on the frames that have
the 3-byte discriminator and, when the handler knows the discriminator, the
bytes that the report layout reads (7 for a temperature report, 4 for a stage
report, 8 for a blower report, 11 for a duct report). -/
theorem snoop_completes_on_full_layout (frame : InfinityFrame) (cache : StateCache) :
    (frame.heatPumpLayout → ∃ cache1, heatPumpSnoop frame cache = some cache1) ∧
    (frame.airHandlerLayout → ∃ cache1, airHandlerSnoop frame cache = some cache1) :=
  ⟨fun h => Option.isSome_iff_exists.1 (heatPumpSnoop_isSome frame cache h),
   fun h => Option.isSome_iff_exists.1 (airHandlerSnoop_isSome frame cache h)⟩

/-- Witness of the amended C5: a temperature report and a duct report of full length. -/
theorem snoop_completes_on_full_layout_witness :
    tempReport.heatPumpLayout ∧ ductReport.airHandlerLayout ∧
    (∃ cache1, heatPumpSnoop tempReport StateCache.empty = some cache1) ∧
    (∃ cache1, airHandlerSnoop ductReport StateCache.empty = some cache1) :=
  ⟨by decide, by decide,
    (snoop_completes_on_full_layout tempReport StateCache.empty).1 (by decide),
    (snoop_completes_on_full_layout ductReport StateCache.empty).2 (by decide)⟩

/-- C5 fails as stated: a frame with 2 data bytes makes both handlers panic at
`frame.data[3:]`, and a stage report or a duct report that ends with its
discriminator makes its handler panic at `data[0]`, whatever the capacity of
the backing array. -/
theorem snoop_panics_on_short_frame :
    heatPumpSnoop shortFrame StateCache.empty = none ∧
    airHandlerSnoop shortFrame StateCache.empty = none ∧
    heatPumpSnoop cutStageReport StateCache.empty = none ∧
    airHandlerSnoop cutDuctReport StateCache.empty = none ∧
    ¬ (∀ (frame : InfinityFrame) (cache : StateCache),
        (heatPumpSnoop frame cache).isSome = true ∧
        (airHandlerSnoop frame cache).isSome = true) := by
  refine ⟨rfl, rfl, rfl, rfl, ?_⟩
  intro h
  have h1 := (h shortFrame StateCache.empty).1
  have h2 : heatPumpSnoop shortFrame StateCache.empty = none := rfl
  rw [h2] at h1
  exact Bool.false_ne_true h1

/-! ## Frames the handlers do not decode (C6) -/

/-- C6: for a frame with at least 3 data bytes whose first three bytes are
neither of a handler's two discriminators, that handler completes without
error and returns the cache it was given, so every key keeps its value. -/
theorem snoop_ignores_other_discriminators (frame : InfinityFrame) (cache : StateCache)
    (hlen : 3 ≤ frame.data.len) :
    (¬ frame.startsWith [0x00, 0x3e, 0x01] → ¬ frame.startsWith [0x00, 0x3e, 0x02] →
      heatPumpSnoop frame cache = some cache) ∧
    (¬ frame.startsWith [0x00, 0x03, 0x06] → ¬ frame.startsWith [0x00, 0x03, 0x16] →
      airHandlerSnoop frame cache = some cache) := by
  exact ⟨heatPumpSnoop_of_other frame cache hlen, airHandlerSnoop_of_other frame cache hlen⟩

/-- Witness of C6: a frame with the prefix `0x00 0x3e 0x03`. -/
theorem snoop_ignores_other_discriminators_witness :
    3 ≤ otherReport.data.len ∧
    ¬ otherReport.startsWith [0x00, 0x3e, 0x01] ∧ ¬ otherReport.startsWith [0x00, 0x3e, 0x02] ∧
    ¬ otherReport.startsWith [0x00, 0x03, 0x06] ∧ ¬ otherReport.startsWith [0x00, 0x03, 0x16] ∧
    heatPumpSnoop otherReport StateCache.empty = some StateCache.empty ∧
    airHandlerSnoop otherReport StateCache.empty = some StateCache.empty :=
  have h := snoop_ignores_other_discriminators otherReport StateCache.empty (by decide)
  ⟨by decide, by decide, by decide, by decide, by decide,
    h.1 (by decide) (by decide), h.2 (by decide) (by decide)⟩

/-! ## Freshness of the cache through the handlers (C7) -/

/-- C7: for every sequence of frames that the handlers process, starting
from the cache of a fresh process, each key holds the value that the code
decoded from the most recent frame that wrote it (at the end and after every
initial part of the sequence); `getHeatPump` and `getFanCoil` return the
fields of those most recent values, and they return absent while a key they
need has not been written by any frame. On frames of full layout no handler
panics, and the decoded values are those of the spec's decoders. -/
theorem snoop_cache_freshness (events : List SnoopEvent) :
    (∀ cache, snoopRun StateCache.empty events = some cache →
      (∀ k, cache.get k = lastDecoded k events) ∧
      (∀ r : HeatPumpData, getHeatPump cache = some r ↔
        ∃ tp ts, lastDecoded "heatpump" events = some (.heatPump tp) ∧
          lastDecoded "heatpumpstage" events = some (.heatPumpStage ts) ∧
          r.CoilTemp = tp.CoilTemp ∧ r.OutsideTemp = tp.OutsideTemp ∧ r.Stage = ts.Stage) ∧
      (∀ r : AirHandlerData, getFanCoil cache = some r ↔
        ∃ tb td, lastDecoded "blower" events = some (.blower tb) ∧
          lastDecoded "duct" events = some (.duct td) ∧
          r.BlowerRPM = tb.BlowerRPM ∧ r.AirFlowCFM = td.AirFlowCFM ∧
          r.ElecHeat = td.ElecHeat) ∧
      (lastDecoded "heatpump" events = none ∨ lastDecoded "heatpumpstage" events = none →
        getHeatPump cache = none) ∧
      (lastDecoded "blower" events = none ∨ lastDecoded "duct" events = none →
        getFanCoil cache = none) ∧
      (∀ pre suf, events = pre ++ suf →
        ∃ cache1, snoopRun StateCache.empty pre = some cache1 ∧
          ∀ k, cache1.get k = lastDecoded k pre)) ∧
    ((∀ e ∈ events, e.ok) →
      (∃ cache, snoopRun StateCache.empty events = some cache) ∧
      ∀ k, lastDecoded k events = lastWritten k events) := by
  have fresh : ∀ (evs : List SnoopEvent) (c : StateCache),
      snoopRun StateCache.empty evs = some c → ∀ k, c.get k = lastDecoded k evs := by
    intro evs c hrun k
    rw [snoopRun_get_decoded evs StateCache.empty c hrun k]
    rcases lastDecoded k evs with _ | v <;> rfl
  constructor
  · intro cache hrun
    have hget := fresh events cache hrun
    refine ⟨hget, ?_, ?_, ?_, ?_, ?_⟩
    · intro r
      rw [getHeatPump_eq_some_iff, hget, hget]
    · intro r
      rw [getFanCoil_eq_some_iff, hget, hget]
    · intro h
      apply getHeatPump_eq_none
      rw [hget, hget]
      exact h
    · intro h
      apply getFanCoil_eq_none
      rw [hget, hget]
      exact h
    · intro pre suf he
      rw [he, snoopRun_append] at hrun
      rcases hpre : snoopRun StateCache.empty pre with _ | cache1
      · rw [hpre] at hrun; cases hrun
      · exact ⟨cache1, rfl, fresh pre cache1 hpre⟩
  · intro hok
    obtain ⟨cache, hrun, _⟩ := snoopRun_get events StateCache.empty hok
    exact ⟨⟨cache, hrun⟩, lastDecoded_eq_lastWritten events hok⟩

/-- Witness of C7: a sequence whose last temperature report is read past the
length of its data (the export gives the temperatures the handler stored for
it, with the stage), and a sequence of frames of full layout (two temperature
reports around a stage report, then a blower and a duct report). -/
theorem snoop_cache_freshness_witness :
    (∃ cache, snoopRun StateCache.empty spareTraffic = some cache ∧
      getHeatPump cache = some { CoilTemp := 16, OutsideTemp := 291 / 16, Stage := 2 }) ∧
    (∀ e ∈ demoTraffic, e.ok) ∧
    (∃ cache, snoopRun StateCache.empty demoTraffic = some cache ∧
      getHeatPump cache = some { CoilTemp := 1 / 2, OutsideTemp := 32, Stage := 2 } ∧
      getFanCoil cache = some { BlowerRPM := 515, AirFlowCFM := 1286, ElecHeat := true }) := by
  have hs := (snoop_cache_freshness spareTraffic).1
  have hd := (snoop_cache_freshness demoTraffic).1
  have hok : ∀ e ∈ demoTraffic, e.ok := by decide
  refine ⟨?_, hok, ?_⟩
  · obtain ⟨cache, hrun⟩ : ∃ cache, snoopRun StateCache.empty spareTraffic = some cache :=
      ⟨_, rfl⟩
    obtain ⟨_, hhp, _⟩ := hs cache hrun
    refine ⟨cache, hrun, (hhp _).2
      ⟨{ CoilTemp := float32OfUint16 256 / float32OfConst 16
         OutsideTemp := float32OfUint16 291 / float32OfConst 16 }, { Stage := 2 },
        rfl, rfl, ?_, ?_, rfl⟩⟩
    · norm_num [float32OfUint16, float32OfConst]
    · norm_num [float32OfUint16, float32OfConst]
  · obtain ⟨cache, hrun⟩ := ((snoop_cache_freshness demoTraffic).2 hok).1
    obtain ⟨_, hhp, hfc, _⟩ := hd cache hrun
    refine ⟨cache, hrun,
      (hhp _).2 ⟨{ CoilTemp := float32OfUint16 8 / float32OfConst 16
                   OutsideTemp := float32OfUint16 512 / float32OfConst 16 }, { Stage := 2 },
        rfl, rfl, ?_, ?_, rfl⟩,
      (hfc _).2 ⟨{ BlowerRPM := 515 }, { AirFlowCFM := 1286, ElecHeat := true }, rfl, rfl,
        rfl, rfl, rfl⟩⟩
    · norm_num [float32OfUint16, float32OfConst]
    · norm_num [float32OfUint16, float32OfConst]

/-! ## The blower report (C8) -/

/-- C8: a frame given to the air-handler handler whose data starts with
`0x00 0x03 0x06` and has at least 8 bytes replaces the cache key `"blower"`
with a record whose `BlowerRPM` is `256*d[4] + d[5]`, whatever the other data
bytes are, and leaves the key `"duct"` as it was. -/
theorem airHandler_blower_report (frame : InfinityFrame) (cache : StateCache)
    (hbytes : frame.bytesOK) (hhead : frame.startsWith [0x00, 0x03, 0x06])
    (hlen : 8 ≤ frame.data.len) :
    ∃ cache1, airHandlerSnoop frame cache = some cache1 ∧
      cache1 = cache.update "blower"
        (.blower { BlowerRPM := 256 * frame.byte 4 + frame.byte 5 }) ∧
      cache1.get "blower" = some (.blower { BlowerRPM := 256 * frame.byte 4 + frame.byte 5 }) ∧
      cache1.get "duct" = cache.get "duct" ∧
      (∀ other : InfinityFrame, other.bytesOK → other.startsWith [0x00, 0x03, 0x06] →
        8 ≤ other.data.len → other.byte 4 = frame.byte 4 → other.byte 5 = frame.byte 5 →
        airHandlerSnoop other cache = some cache1) := by
  refine ⟨_, airHandlerSnoop_of_blower frame cache hbytes hhead hlen, rfl, ?_, ?_, ?_⟩
  · exact StateCache.get_update_same _ _ _
  · exact StateCache.get_update_other _ _ _ _ (by decide)
  · intro other hb hh hl e4 e5
    rw [airHandlerSnoop_of_blower other cache hb hh hl, e4, e5]

/-- Witness of C8: the blower report with the speed bytes `0x02 0x03`. -/
theorem airHandler_blower_report_witness :
    blowerReport.bytesOK ∧ blowerReport.startsWith [0x00, 0x03, 0x06] ∧
    8 ≤ blowerReport.data.len ∧
    ∃ cache1, airHandlerSnoop blowerReport StateCache.empty = some cache1 ∧
      cache1 = StateCache.empty.update "blower"
        (.blower { BlowerRPM := 256 * blowerReport.byte 4 + blowerReport.byte 5 }) ∧
      cache1.get "blower" =
        some (.blower { BlowerRPM := 256 * blowerReport.byte 4 + blowerReport.byte 5 }) ∧
      cache1.get "duct" = StateCache.empty.get "duct" ∧
      (∀ other : InfinityFrame, other.bytesOK → other.startsWith [0x00, 0x03, 0x06] →
        8 ≤ other.data.len → other.byte 4 = blowerReport.byte 4 →
        other.byte 5 = blowerReport.byte 5 →
        airHandlerSnoop other StateCache.empty = some cache1) :=
  ⟨by decide, by decide, by decide,
    airHandler_blower_report blowerReport StateCache.empty (by decide) (by decide) (by decide)⟩

/-! ## The duct report (C9) -/

/-- C9: a frame given to the air-handler handler whose data starts with
`0x00 0x03 0x16` and has at least 11 bytes replaces the cache key `"duct"`
with a record whose `AirFlowCFM` is `256*d[7] + d[8]` and whose `ElecHeat` is
true iff `d[3] & 0x03` is not zero, and leaves the key `"blower"` as it was. -/
theorem airHandler_duct_report (frame : InfinityFrame) (cache : StateCache)
    (hbytes : frame.bytesOK) (hhead : frame.startsWith [0x00, 0x03, 0x16])
    (hlen : 11 ≤ frame.data.len) :
    ∃ cache1 duct, airHandlerSnoop frame cache = some cache1 ∧
      cache1 = cache.update "duct" (.duct duct) ∧
      cache1.get "duct" = some (.duct duct) ∧
      duct.AirFlowCFM = 256 * frame.byte 7 + frame.byte 8 ∧
      (duct.ElecHeat = true ↔ frame.byte 3 &&& 0x03 ≠ 0) ∧
      cache1.get "blower" = cache.get "blower" := by
  refine ⟨_, _, airHandlerSnoop_of_duct frame cache hbytes hhead hlen, rfl, ?_, rfl, ?_, ?_⟩
  · exact StateCache.get_update_same _ _ _
  · simp
  · exact StateCache.get_update_other _ _ _ _ (by decide)

/-- Witness of C9: the duct report with the status byte `0x01`. -/
theorem airHandler_duct_report_witness :
    ductReport.bytesOK ∧ ductReport.startsWith [0x00, 0x03, 0x16] ∧ 11 ≤ ductReport.data.len ∧
    ∃ cache1 duct, airHandlerSnoop ductReport StateCache.empty = some cache1 ∧
      cache1 = StateCache.empty.update "duct" (.duct duct) ∧
      cache1.get "duct" = some (.duct duct) ∧
      duct.AirFlowCFM = 256 * ductReport.byte 7 + ductReport.byte 8 ∧
      (duct.ElecHeat = true ↔ ductReport.byte 3 &&& 0x03 ≠ 0) ∧
      cache1.get "blower" = StateCache.empty.get "blower" :=
  ⟨by decide, by decide, by decide,
    airHandler_duct_report ductReport StateCache.empty (by decide) (by decide) (by decide)⟩

/-! ## The poller (C10) -/

/-- C10: a `statePoller` cycle in which `getConfig` fails leaves every cache
key as it was, and a cycle in which `getConfig` succeeds puts the config just
read under the poller's key and leaves every other key as it was. -/
theorem statePoller_cycle_effect {σ : Type} (infinity : Protocol σ) (s : σ)
    (cache : StateCache) :
    ((getConfig infinity s).1 = none →
      (statePollerCycle infinity s cache).2 = cache ∧
      ∀ k, (statePollerCycle infinity s cache).2.get k = cache.get k) ∧
    (∀ c, (getConfig infinity s).1 = some c →
      (statePollerCycle infinity s cache).2.get "tstat" = some (.tstat c) ∧
      ∀ k, k ≠ "tstat" → (statePollerCycle infinity s cache).2.get k = cache.get k) := by
  unfold statePollerCycle
  constructor
  · intro h
    split
    · rename_i c s1 e
      rw [e] at h
      cases h
    · exact ⟨rfl, fun _ => rfl⟩
  · intro c h
    split
    · rename_i c1 s1 e
      rw [e] at h
      cases h
      exact ⟨StateCache.get_update_same _ _ _, fun k hk => StateCache.get_update_other _ _ _ _ hk⟩
    · rename_i s1 e
      rw [e] at h
      cases h

/-- Witness of C10: on the example cache, a cycle whose zone read fails
returns the cache it was given, and a cycle whose two reads succeed puts the
new config under the poller's key and leaves the blower value. -/
theorem statePoller_cycle_effect_witness :
    (getConfig (demoProtocol none (some demoCurrent)) []).1 = none ∧
    (statePollerCycle (demoProtocol none (some demoCurrent)) [] demoCache).2 = demoCache ∧
    ∃ c, (getConfig (demoProtocol (some demoZone) (some demoCurrent)) []).1 = some c ∧
      (statePollerCycle (demoProtocol (some demoZone) (some demoCurrent)) [] demoCache).2.get
        "tstat" = some (.tstat c) ∧
      (statePollerCycle (demoProtocol (some demoZone) (some demoCurrent)) [] demoCache).2.get
        "blower" = demoCache.get "blower" :=
  have hf := (statePoller_cycle_effect (demoProtocol none (some demoCurrent)) [] demoCache).1 rfl
  have hs := (statePoller_cycle_effect (demoProtocol (some demoZone) (some demoCurrent)) []
    demoCache).2 _ rfl
  ⟨rfl, hf.1, _, rfl, hs.1, hs.2 "blower" (by decide)⟩

/-! ## The keys of the cache (C11) -/

/-- C11, as the code has it: `statePoller` writes the thermostat config under
the key `"tstat"` (not `"thermostat"`), the heat-pump handler writes a
`HeatPump` under `"heatpump"` or a `HeatPumpStage` under `"heatpumpstage"`,
the air-handler handler writes an `AirHandlerBlower` under `"blower"` or an
`AirHandlerDuct` under `"duct"`, and no call changes any other key: every key
written is one of `"tstat"`, `"blower"`, `"duct"`, `"heatpump"`, `"heatpumpstage"`. -/
theorem cache_keys_written {σ : Type} (infinity : Protocol σ) (s : σ) (frame : InfinityFrame)
    (cache : StateCache) :
    ((statePollerCycle infinity s cache).2 = cache ∨
      ∃ c, (getConfig infinity s).1 = some c ∧
        (statePollerCycle infinity s cache).2 = cache.update "tstat" (.tstat c)) ∧
    (∀ cache1, heatPumpSnoop frame cache = some cache1 →
      cache1 = cache ∨ (∃ p, cache1 = cache.update "heatpump" (.heatPump p)) ∨
        ∃ st, cache1 = cache.update "heatpumpstage" (.heatPumpStage st)) ∧
    (∀ cache1, airHandlerSnoop frame cache = some cache1 →
      cache1 = cache ∨ (∃ b, cache1 = cache.update "blower" (.blower b)) ∨
        ∃ d, cache1 = cache.update "duct" (.duct d)) ∧
    (∀ k, (statePollerCycle infinity s cache).2.get k ≠ cache.get k → k ∈ writtenKeys) ∧
    (∀ cache1, heatPumpSnoop frame cache = some cache1 →
      ∀ k, cache1.get k ≠ cache.get k → k ∈ writtenKeys) ∧
    (∀ cache1, airHandlerSnoop frame cache = some cache1 →
      ∀ k, cache1.get k ≠ cache.get k → k ∈ writtenKeys) := by
  have hp : (statePollerCycle infinity s cache).2 = cache ∨
      ∃ c, (getConfig infinity s).1 = some c ∧
        (statePollerCycle infinity s cache).2 = cache.update "tstat" (.tstat c) := by
    rcases statePollerCycle_cases infinity s cache with ⟨_, h⟩ | h
    · exact Or.inl h
    · exact Or.inr h
  have hh : ∀ cache1, heatPumpSnoop frame cache = some cache1 →
      cache1 = cache ∨ (∃ p, cache1 = cache.update "heatpump" (.heatPump p)) ∨
        ∃ st, cache1 = cache.update "heatpumpstage" (.heatPumpStage st) := by
    intro cache1 h1
    rcases heatPumpSnoop_cases frame cache with h | h | ⟨p, h⟩ | ⟨st, h⟩ <;> rw [h] at h1
    · cases h1
    · exact Or.inl (Option.some.inj h1).symm
    · exact Or.inr (Or.inl ⟨p, (Option.some.inj h1).symm⟩)
    · exact Or.inr (Or.inr ⟨st, (Option.some.inj h1).symm⟩)
  have ha : ∀ cache1, airHandlerSnoop frame cache = some cache1 →
      cache1 = cache ∨ (∃ b, cache1 = cache.update "blower" (.blower b)) ∨
        ∃ d, cache1 = cache.update "duct" (.duct d) := by
    intro cache1 h1
    rcases airHandlerSnoop_cases frame cache with h | h | ⟨b, h⟩ | ⟨d, h⟩ <;> rw [h] at h1
    · cases h1
    · exact Or.inl (Option.some.inj h1).symm
    · exact Or.inr (Or.inl ⟨b, (Option.some.inj h1).symm⟩)
    · exact Or.inr (Or.inr ⟨d, (Option.some.inj h1).symm⟩)
  refine ⟨hp, hh, ha, ?_, ?_, ?_⟩
  · intro k hk
    rcases hp with h | ⟨c, _, h⟩ <;> rw [h] at hk
    · exact absurd rfl hk
    · rw [StateCache.get_update_of_changed _ _ _ _ hk]; decide
  · intro cache1 h1 k hk
    rcases hh cache1 h1 with h | ⟨p, h⟩ | ⟨st, h⟩ <;> rw [h] at hk
    · exact absurd rfl hk
    · rw [StateCache.get_update_of_changed _ _ _ _ hk]; decide
    · rw [StateCache.get_update_of_changed _ _ _ _ hk]; decide
  · intro cache1 h1 k hk
    rcases ha cache1 h1 with h | ⟨b, h⟩ | ⟨d, h⟩ <;> rw [h] at hk
    · exact absurd rfl hk
    · rw [StateCache.get_update_of_changed _ _ _ _ hk]; decide
    · rw [StateCache.get_update_of_changed _ _ _ _ hk]; decide

/-- C11 fails as stated: after a cycle of the poller whose two reads succeed,
started on the empty cache, the config is under `"tstat"`, which is none of
the five names of the spec, and nothing is under `"thermostat"`. -/
theorem statePoller_key_is_tstat :
    (statePollerCycle (demoProtocol (some demoZone) (some demoCurrent)) []
      StateCache.empty).2.get "thermostat" = none ∧
    (∃ c, (statePollerCycle (demoProtocol (some demoZone) (some demoCurrent)) []
      StateCache.empty).2.get "tstat" = some (.tstat c)) ∧
    "tstat" ∉ specKeys ∧
    ¬ (∀ k, (statePollerCycle (demoProtocol (some demoZone) (some demoCurrent)) []
        StateCache.empty).2.get k ≠ StateCache.empty.get k → k ∈ specKeys) := by
  refine ⟨rfl, ⟨_, rfl⟩, by decide, ?_⟩
  intro h
  have h1 : "tstat" ∈ specKeys := h "tstat" (by
    intro e
    have e2 : (statePollerCycle (demoProtocol (some demoZone) (some demoCurrent)) []
      StateCache.empty).2.get "tstat" = none := e
    cases e2)
  exact absurd h1 (by decide)

/-- Witness of the amended C11: on the example bus and the example reports,
each of the five keys is written, and it is one of the five keys of the code. -/
theorem cache_keys_written_witness :
    (statePollerCycle (demoProtocol (some demoZone) (some demoCurrent)) []
      StateCache.empty).2.get "tstat" ≠ StateCache.empty.get "tstat" ∧
    "tstat" ∈ writtenKeys ∧
    (∃ cache1, heatPumpSnoop tempReport StateCache.empty = some cache1 ∧
      cache1.get "heatpump" ≠ StateCache.empty.get "heatpump") ∧
    "heatpump" ∈ writtenKeys ∧
    (∃ cache1, airHandlerSnoop ductReport StateCache.empty = some cache1 ∧
      cache1.get "duct" ≠ StateCache.empty.get "duct") ∧
    "duct" ∈ writtenKeys :=
  have h := cache_keys_written (demoProtocol (some demoZone) (some demoCurrent)) [] tempReport
    StateCache.empty
  have g := cache_keys_written (demoProtocol (some demoZone) (some demoCurrent)) [] ductReport
    StateCache.empty
  have e1 : (statePollerCycle (demoProtocol (some demoZone) (some demoCurrent)) []
      StateCache.empty).2.get "tstat" ≠ StateCache.empty.get "tstat" := fun e => by cases e
  have e2 : ∃ cache1, heatPumpSnoop tempReport StateCache.empty = some cache1 ∧
      cache1.get "heatpump" ≠ StateCache.empty.get "heatpump" :=
    ⟨_, rfl, fun e => by cases e⟩
  have e3 : ∃ cache1, airHandlerSnoop ductReport StateCache.empty = some cache1 ∧
      cache1.get "duct" ≠ StateCache.empty.get "duct" :=
    ⟨_, rfl, fun e => by cases e⟩
  ⟨e1, h.2.2.2.1 "tstat" e1, e2,
    Exists.elim e2 (fun c1 hc => h.2.2.2.2.1 c1 hc.1 "heatpump" hc.2), e3,
    Exists.elim e3 (fun c1 hc => g.2.2.2.2.2 c1 hc.1 "duct" hc.2)⟩

/-! ## Hold and the raw register values (C12) -/

/-- C12: when both register reads succeed, `getConfig` returns a record
whose `Hold` is a non-nil boolean that is true iff bit 0 of the zone-hold
byte is set (`ZoneHold & 0x01 == 1`), and whose `CurrentTemp`,
`CurrentHumidity`, `OutdoorTemp`, `HeatSetpoint` and `CoolSetpoint` are the
register bytes `Z1CurrentTemp`, `Z1CurrentHumidity`, `OutdoorAirTemp`,
`Z1HeatSetpoint` and `Z1CoolSetpoint` as read. -/
theorem getConfig_hold_and_raw_values {σ : Type} (infinity : Protocol σ) (s s1 s2 : σ)
    (cfg : TStatZoneParams) (params : TStatCurrentParams)
    (hzone : infinity.readZoneParams s = (some cfg, s1))
    (hcur : infinity.readCurrentParams s1 = (some params, s2)) :
    ∃ (r : TStatZoneConfig) (hold : Bool), (getConfig infinity s).1 = some r ∧
      r.Hold = some hold ∧
      (hold = true ↔ cfg.ZoneHold &&& 0x01 = 1) ∧
      (hold = true ↔ cfg.ZoneHold.testBit 0 = true) ∧
      r.CurrentTemp = params.Z1CurrentTemp ∧
      r.CurrentHumidity = params.Z1CurrentHumidity ∧
      r.OutdoorTemp = params.OutdoorAirTemp ∧
      r.HeatSetpoint = cfg.Z1HeatSetpoint ∧
      r.CoolSetpoint = cfg.Z1CoolSetpoint := by
  rw [getConfig_of_reads infinity s s1 s2 cfg params hzone hcur]
  refine ⟨_, _, rfl, rfl, ?_, ?_, rfl, rfl, rfl, rfl, rfl⟩
  · simp
  · rw [Nat.testBit_zero, Nat.and_one_is_mod]

/-- Witness of C12: the example bus, whose zone-hold byte is `1`. -/
theorem getConfig_hold_and_raw_values_witness :
    ∃ (r : TStatZoneConfig) (hold : Bool),
      (getConfig (demoProtocol (some demoZone) (some demoCurrent)) []).1 = some r ∧
      r.Hold = some hold ∧
      (hold = true ↔ demoZone.ZoneHold &&& 0x01 = 1) ∧
      (hold = true ↔ demoZone.ZoneHold.testBit 0 = true) ∧
      r.CurrentTemp = demoCurrent.Z1CurrentTemp ∧
      r.CurrentHumidity = demoCurrent.Z1CurrentHumidity ∧
      r.OutdoorTemp = demoCurrent.OutdoorAirTemp ∧
      r.HeatSetpoint = demoZone.Z1HeatSetpoint ∧
      r.CoolSetpoint = demoZone.Z1CoolSetpoint :=
  getConfig_hold_and_raw_values (demoProtocol (some demoZone) (some demoCurrent)) [] ["zone"]
    ["zone", "current"] demoZone demoCurrent rfl rfl

/-! ## The two register reads (C13) -/

/-- C13: `getConfig` returns a record iff the zone-parameters read and then
the current-parameters read both succeed, and `(nil, false)` when either
fails; it issues the zone-parameters read first, and the current-parameters
read after it only when the first has succeeded: when the first read fails
the bus is left as that read left it and the log of reads holds that read
alone, otherwise the log holds the two reads in this order. -/
theorem getConfig_two_reads {σ : Type} (infinity : Protocol σ) (s : σ) :
    ((∃ r, (getConfig infinity s).1 = some r) ↔
      (∃ cfg, (infinity.readZoneParams s).1 = some cfg) ∧
      ∃ params, (infinity.readCurrentParams (infinity.readZoneParams s).2).1 = some params) ∧
    ((infinity.readZoneParams s).1 = none →
      getConfig infinity s = (none, (infinity.readZoneParams s).2) ∧
      (getConfig infinity.withLog (s, [])).2.2 = [ReadRequest.zoneParams]) ∧
    ((∃ cfg, (infinity.readZoneParams s).1 = some cfg) →
      (getConfig infinity s).2 =
        (infinity.readCurrentParams (infinity.readZoneParams s).2).2 ∧
      (getConfig infinity.withLog (s, [])).2.2 =
        [ReadRequest.zoneParams, ReadRequest.currentParams]) ∧
    ((infinity.readCurrentParams (infinity.readZoneParams s).2).1 = none →
      (getConfig infinity s).1 = none) ∧
    (getConfig infinity.withLog (s, [])).1 = (getConfig infinity s).1 ∧
    (getConfig infinity.withLog (s, [])).2.1 = (getConfig infinity s).2 := by
  rcases hz : infinity.readZoneParams s with ⟨_ | cfg, s1⟩
  · simp [getConfig, Protocol.withLog, hz]
  · rcases hc : infinity.readCurrentParams s1 with ⟨_ | params, s2⟩
    · simp [getConfig, Protocol.withLog, hz, hc]
    · simp [getConfig, Protocol.withLog, hz, hc]

/-- Witness of C13: on a bus whose zone read fails the log holds that read
alone; on a bus that answers both reads a record is returned and the log
holds the two reads. -/
theorem getConfig_two_reads_witness :
    ((demoProtocol none (some demoCurrent)).readZoneParams []).1 = none ∧
    (getConfig (demoProtocol none (some demoCurrent)) []).1 = none ∧
    (getConfig (demoProtocol none (some demoCurrent)).withLog ([], [])).2.2 =
      [ReadRequest.zoneParams] ∧
    (∃ r, (getConfig (demoProtocol (some demoZone) (some demoCurrent)) []).1 = some r) ∧
    (getConfig (demoProtocol (some demoZone) (some demoCurrent)).withLog ([], [])).2.2 =
      [ReadRequest.zoneParams, ReadRequest.currentParams] :=
  have hf := (getConfig_two_reads (demoProtocol none (some demoCurrent)) []).2.1 rfl
  have hs := getConfig_two_reads (demoProtocol (some demoZone) (some demoCurrent)) []
  ⟨rfl, congrArg Prod.fst hf.1, hf.2, hs.1.2 ⟨⟨_, rfl⟩, ⟨_, rfl⟩⟩, (hs.2.2.1 ⟨_, rfl⟩).2⟩

/-! ## The keys of the two paths (C14) -/

/-- C14: a call of a snoop handler changes at most one cache key, a key of
its own device (`"heatpump"` or `"heatpumpstage"` for the heat-pump handler,
`"blower"` or `"duct"` for the air-handler handler), never the key that
`statePoller` writes; and a cycle of `statePoller` changes none of the four
keys of the handlers. -/
theorem snoop_and_poller_keys_disjoint {σ : Type} (infinity : Protocol σ) (s : σ)
    (frame : InfinityFrame) (cache : StateCache) :
    (∀ cache1, heatPumpSnoop frame cache = some cache1 →
      (∃ key, (key = "heatpump" ∨ key = "heatpumpstage") ∧
        ∀ k, k ≠ key → cache1.get k = cache.get k) ∧
      cache1.get "tstat" = cache.get "tstat") ∧
    (∀ cache1, airHandlerSnoop frame cache = some cache1 →
      (∃ key, (key = "blower" ∨ key = "duct") ∧
        ∀ k, k ≠ key → cache1.get k = cache.get k) ∧
      cache1.get "tstat" = cache.get "tstat") ∧
    (∀ k, k ≠ "tstat" → (statePollerCycle infinity s cache).2.get k = cache.get k) ∧
    (∀ k, k ∈ ["heatpump", "heatpumpstage", "blower", "duct"] →
      (statePollerCycle infinity s cache).2.get k = cache.get k) := by
  have hp : ∀ k, k ≠ "tstat" → (statePollerCycle infinity s cache).2.get k = cache.get k := by
    intro k hk
    rcases statePollerCycle_cases infinity s cache with ⟨_, h⟩ | ⟨c, _, h⟩ <;> rw [h]
    exact StateCache.get_update_other _ _ _ _ hk
  refine ⟨?_, ?_, hp, ?_⟩
  · intro cache1 h1
    rcases heatPumpSnoop_cases frame cache with h | h | ⟨p, h⟩ | ⟨st, h⟩ <;> rw [h] at h1
    · cases h1
    · cases h1
      exact ⟨⟨"heatpump", Or.inl rfl, fun _ _ => rfl⟩, rfl⟩
    · cases h1
      exact ⟨⟨"heatpump", Or.inl rfl, fun k hk => StateCache.get_update_other _ _ _ _ hk⟩,
        StateCache.get_update_other _ _ _ _ (by decide)⟩
    · cases h1
      exact ⟨⟨"heatpumpstage", Or.inr rfl,
        fun k hk => StateCache.get_update_other _ _ _ _ hk⟩,
        StateCache.get_update_other _ _ _ _ (by decide)⟩
  · intro cache1 h1
    rcases airHandlerSnoop_cases frame cache with h | h | ⟨b, h⟩ | ⟨d, h⟩ <;> rw [h] at h1
    · cases h1
    · cases h1
      exact ⟨⟨"blower", Or.inl rfl, fun _ _ => rfl⟩, rfl⟩
    · cases h1
      exact ⟨⟨"blower", Or.inl rfl, fun k hk => StateCache.get_update_other _ _ _ _ hk⟩,
        StateCache.get_update_other _ _ _ _ (by decide)⟩
    · cases h1
      exact ⟨⟨"duct", Or.inr rfl, fun k hk => StateCache.get_update_other _ _ _ _ hk⟩,
        StateCache.get_update_other _ _ _ _ (by decide)⟩
  · intro k hk
    apply hp
    intro e
    subst e
    revert hk
    decide

/-- Witness of C14: the stage report changes `"heatpumpstage"` alone on the
example cache, and a cycle of the poller leaves the blower value there. -/
theorem snoop_and_poller_keys_disjoint_witness :
    (∃ cache1, heatPumpSnoop stageReport demoCache = some cache1 ∧
      cache1.get "tstat" = demoCache.get "tstat") ∧
    (statePollerCycle (demoProtocol (some demoZone) (some demoCurrent)) [] demoCache).2.get
      "blower" = demoCache.get "blower" :=
  have h := snoop_and_poller_keys_disjoint (demoProtocol (some demoZone) (some demoCurrent)) []
    stageReport demoCache
  ⟨⟨_, rfl, (h.1 _ rfl).2⟩, h.2.2.2 "blower" (by decide)⟩

/-! ## What the heat-pump conversions keep (C15) -/

/-- C15, as the code has it: the two temperature conversions are
deterministic and lossless (two temperature reports give the same coil
temperature iff their coil bytes are equal, and the same outside temperature
iff their outside bytes are equal), while the stage conversion `d[3] >> 1`
drops bit 0 of the status byte: two stage reports give the same stage iff
their status bytes are equal apart from bit 0, so the stage determines the
status byte only as `2 * stage` or `2 * stage + 1`. -/
theorem heatPump_conversions_lossless_but_stage_bit0 (cache : StateCache) :
    (∀ f1 f2 : InfinityFrame, f1.bytesOK → f2.bytesOK →
      f1.startsWith [0x00, 0x3e, 0x01] → f2.startsWith [0x00, 0x3e, 0x01] →
      7 ≤ f1.data.len → 7 ≤ f2.data.len →
      ∃ p1 p2, heatPumpSnoop f1 cache = some (cache.update "heatpump" (.heatPump p1)) ∧
        heatPumpSnoop f2 cache = some (cache.update "heatpump" (.heatPump p2)) ∧
        (p1.CoilTemp = p2.CoilTemp ↔ f1.byte 5 = f2.byte 5 ∧ f1.byte 6 = f2.byte 6) ∧
        (p1.OutsideTemp = p2.OutsideTemp ↔ f1.byte 3 = f2.byte 3 ∧ f1.byte 4 = f2.byte 4)) ∧
    (∀ f1 f2 : InfinityFrame,
      f1.startsWith [0x00, 0x3e, 0x02] → f2.startsWith [0x00, 0x3e, 0x02] →
      4 ≤ f1.data.len → 4 ≤ f2.data.len →
      ∃ st1 st2,
        heatPumpSnoop f1 cache = some (cache.update "heatpumpstage" (.heatPumpStage st1)) ∧
        heatPumpSnoop f2 cache = some (cache.update "heatpumpstage" (.heatPumpStage st2)) ∧
        (st1.Stage = st2.Stage ↔ f1.byte 3 / 2 = f2.byte 3 / 2) ∧
        (f1.byte 3 = 2 * st1.Stage ∨ f1.byte 3 = 2 * st1.Stage + 1)) := by
  constructor
  · intro f1 f2 hb1 hb2 hh1 hh2 hl1 hl2
    refine ⟨_, _, heatPumpSnoop_of_temperature f1 cache hb1 hh1 hl1,
      heatPumpSnoop_of_temperature f2 cache hb2 hh2 hl2, ?_, ?_⟩
    · exact sixteenths_inj _ _ _ _ (f1.byte_lt hb1 6) (f2.byte_lt hb2 6)
    · exact sixteenths_inj _ _ _ _ (f1.byte_lt hb1 4) (f2.byte_lt hb2 4)
  · intro f1 f2 hh1 hh2 hl1 hl2
    refine ⟨_, _, heatPumpSnoop_of_stage f1 cache hh1 hl1,
      heatPumpSnoop_of_stage f2 cache hh2 hl2, ?_, ?_⟩
    · exact half_of_shift _ _
    · simp only [Nat.shiftRight_eq_div_pow]
      omega

/-- Witness of the amended C15: the two temperature reports of the examples
differ in their coil bytes and in their coil temperatures, and the stage
reports with the status bytes `0x04` and `0x05` give the same stage. -/
theorem heatPump_conversions_lossless_but_stage_bit0_witness :
    (∃ p1 p2,
      heatPumpSnoop tempReport StateCache.empty =
        some (StateCache.empty.update "heatpump" (.heatPump p1)) ∧
      heatPumpSnoop tempReport2 StateCache.empty =
        some (StateCache.empty.update "heatpump" (.heatPump p2)) ∧
      (p1.CoilTemp = p2.CoilTemp ↔
        tempReport.byte 5 = tempReport2.byte 5 ∧ tempReport.byte 6 = tempReport2.byte 6)) ∧
    (∃ st1 st2,
      heatPumpSnoop stageReport4 StateCache.empty =
        some (StateCache.empty.update "heatpumpstage" (.heatPumpStage st1)) ∧
      heatPumpSnoop stageReport StateCache.empty =
        some (StateCache.empty.update "heatpumpstage" (.heatPumpStage st2)) ∧
      st1.Stage = st2.Stage) :=
  have h := heatPump_conversions_lossless_but_stage_bit0 StateCache.empty
  have ⟨p1, p2, e1, e2, e3, _⟩ := h.1 tempReport tempReport2 (by decide) (by decide) (by decide)
    (by decide) (by decide) (by decide)
  have ⟨st1, st2, g1, g2, g3, _⟩ := h.2 stageReport4 stageReport (by decide) (by decide)
    (by decide) (by decide)
  ⟨⟨p1, p2, e1, e2, e3⟩, ⟨st1, st2, g1, g2, g3.2 (by decide)⟩⟩

/-- C15 fails as stated: the stage reports with the status bytes `0x04` and
`0x05` write the same record, stage 2, so the stage does not determine the
status byte. -/
theorem stage_conversion_not_injective :
    heatPumpSnoop stageReport4 StateCache.empty =
      some (StateCache.empty.update "heatpumpstage" (.heatPumpStage { Stage := 2 })) ∧
    heatPumpSnoop stageReport StateCache.empty =
      some (StateCache.empty.update "heatpumpstage" (.heatPumpStage { Stage := 2 })) ∧
    stageReport4.byte 3 = 0x04 ∧ stageReport.byte 3 = 0x05 ∧
    ¬ (∀ b b' : Nat, b < 256 → b' < 256 → b >>> 1 = b' >>> 1 → b = b') := by
  refine ⟨rfl, rfl, rfl, rfl, ?_⟩
  intro h
  have h1 := h 4 5 (by decide) (by decide) (by decide)
  exact absurd h1 (by decide)

/-! ## The range of the temperatures (C16) -/

/-- C16: the two temperature fields are read as unsigned 16-bit values, so
for every temperature report both decoded temperatures `t` satisfy
`0 ≤ t ≤ 4095.9375` with `16 * t` a natural number; the raw bytes `0xff 0xf0`
decode to `4095`, not to a negative temperature. -/
theorem heatPump_temperatures_unsigned (frame : InfinityFrame) (cache : StateCache)
    (hbytes : frame.bytesOK) (hhead : frame.startsWith [0x00, 0x3e, 0x01])
    (hlen : 7 ≤ frame.data.len) :
    ∃ p, heatPumpSnoop frame cache = some (cache.update "heatpump" (.heatPump p)) ∧
      0 ≤ p.CoilTemp ∧ p.CoilTemp ≤ 4095.9375 ∧ (∃ n : Nat, 16 * p.CoilTemp = (n : ℚ)) ∧
      0 ≤ p.OutsideTemp ∧ p.OutsideTemp ≤ 4095.9375 ∧
      (∃ n : Nat, 16 * p.OutsideTemp = (n : ℚ)) ∧
      (frame.byte 5 = 0xff → frame.byte 6 = 0xf0 → p.CoilTemp = 4095) ∧
      (frame.byte 3 = 0xff → frame.byte 4 = 0xf0 → p.OutsideTemp = 4095) := by
  have hc := sixteenths_bounds (frame.byte 5) (frame.byte 6) (frame.byte_lt hbytes 5)
    (frame.byte_lt hbytes 6)
  have ho := sixteenths_bounds (frame.byte 3) (frame.byte 4) (frame.byte_lt hbytes 3)
    (frame.byte_lt hbytes 4)
  refine ⟨_, heatPumpSnoop_of_temperature frame cache hbytes hhead hlen, hc.1, hc.2.1,
    ⟨_, hc.2.2⟩, ho.1, ho.2.1, ⟨_, ho.2.2⟩, ?_, ?_⟩
  · intro e5 e6
    simp only [e5, e6]
    norm_num
  · intro e3 e4
    simp only [e3, e4]
    norm_num

/-- Witness of C16: the temperature report whose two fields are `0xff 0xf0`. -/
theorem heatPump_temperatures_unsigned_witness :
    highTempReport.bytesOK ∧ highTempReport.startsWith [0x00, 0x3e, 0x01] ∧
    7 ≤ highTempReport.data.len ∧
    ∃ p, heatPumpSnoop highTempReport StateCache.empty =
        some (StateCache.empty.update "heatpump" (.heatPump p)) ∧
      0 ≤ p.CoilTemp ∧ p.CoilTemp ≤ 4095.9375 ∧ p.CoilTemp = 4095 ∧ p.OutsideTemp = 4095 :=
  have ⟨p, h1, h2, h3, _, _, _, _, h8, h9⟩ :=
    heatPump_temperatures_unsigned highTempReport StateCache.empty (by decide) (by decide)
      (by decide)
  ⟨by decide, by decide, by decide, p, h1, h2, h3, h8 (by decide) (by decide),
    h9 (by decide) (by decide)⟩

/-! ## Bit 4 of the mode byte (C17) -/

/-- C17: bit 4 of the mode byte reaches neither decoded field: when the bus
answers with the mode byte `m` at one time and with `m xor 0x10` at another,
`getConfig` gives the same `Mode` and the same `Stage` and a different
`RawMode` (and, the other register bytes being equal, records that differ in
`RawMode` alone); the value given to `rawModeToString` is at most 15 and
`Stage` is at most 7. -/
theorem getConfig_mode_bit4_ignored {σ : Type} (infinity : Protocol σ) (s s1 s2 t t1 t2 : σ)
    (cfg cfg' : TStatZoneParams) (params params' : TStatCurrentParams)
    (hzone : infinity.readZoneParams s = (some cfg, s1))
    (hcur : infinity.readCurrentParams s1 = (some params, s2))
    (hzone' : infinity.readZoneParams t = (some cfg', t1))
    (hcur' : infinity.readCurrentParams t1 = (some params', t2))
    (hbyte : params.Mode < 256) (hflip : params'.Mode = params.Mode ^^^ 0x10) :
    ∃ r r', (getConfig infinity s).1 = some r ∧ (getConfig infinity t).1 = some r' ∧
      r'.Mode = r.Mode ∧ r'.Stage = r.Stage ∧ r'.RawMode ≠ r.RawMode ∧
      r.Mode = infinity.rawModeToString (params.Mode &&& 0xf) ∧
      params.Mode &&& 0xf ≤ 15 ∧ r.Stage ≤ 7 ∧
      (cfg' = cfg → params' = { params with Mode := params.Mode ^^^ 0x10 } →
        r' = { r with RawMode := params.Mode ^^^ 0x10 }) := by
  obtain ⟨m1, m2, m3, m4, m5⟩ := mode_bit4 params.Mode hbyte
  rw [getConfig_of_reads infinity s s1 s2 cfg params hzone hcur,
    getConfig_of_reads infinity t t1 t2 cfg' params' hzone' hcur']
  refine ⟨_, _, rfl, rfl, ?_, ?_, ?_, rfl, m4, m5, ?_⟩
  · simp only [hflip, m1]
  · simp only [hflip, m2]
  · simp only [hflip]
    exact m3
  · intro e1 e2
    subst e1
    simp only [e2, m1, m2]

/-- Witness of C17: the mode bytes `0x25` and `0x35` on the example bus. -/
theorem getConfig_mode_bit4_ignored_witness :
    ∃ r r', (getConfig modeProtocol 0x25).1 = some r ∧
      (getConfig modeProtocol 0x35).1 = some r' ∧
      r'.Mode = r.Mode ∧ r'.Stage = r.Stage ∧ r'.RawMode ≠ r.RawMode ∧ r.Stage ≤ 7 :=
  have ⟨r, r', h1, h2, h3, h4, h5, _, _, h8, _⟩ :=
    getConfig_mode_bit4_ignored modeProtocol 0x25 0x25 0x25 0x35 0x35 0x35 demoZone demoZone
      { Z1CurrentTemp := 70, Z1CurrentHumidity := 40, OutdoorAirTemp := 55, Mode := 0x25 }
      { Z1CurrentTemp := 70, Z1CurrentHumidity := 40, OutdoorAirTemp := 55, Mode := 0x35 }
      rfl rfl rfl rfl (by decide) (by decide)
  ⟨r, r', h1, h2, h3, h4, h5, h8⟩

end Infinitive
